import Mathlib

/-!
Verification development for the saltcheck module (`salt/modules/saltcheck.py`).

The module is shallowly embedded: Python runtime values are the inductive
type `Value`, Python exceptions are `PyErr`, fallible Python code returns
`Except PyErr _`, and the external collaborators (the salt invoker, the
renderer, the file cache, module introspection) are explicit environment
records.  Every definition is a direct transcription of the corresponding
Python function, with its source name kept.
-/

/-- A Python runtime value as it occurs in rendered saltcheck test data:
`None`, `bool`, `int`, `str`, `list` and `dict` (dict entries kept in
insertion order). -/
inductive Value where
  | none
  | bool (b : Bool)
  | int (n : Int)
  | str (s : String)
  | list (l : List Value)
  | dict (l : List (Value × Value))

/-- Structural (strict) equality test on `Value`, used only to build the
`DecidableEq` instance. -/
def vbeq : Value → Value → Bool
  | .none, .none => true
  | .bool a, .bool b => a == b
  | .int a, .int b => a == b
  | .str a, .str b => a == b
  | .list a, .list b => vbeqL a b
  | .dict a, .dict b => vbeqD a b
  | _, _ => false
where
  vbeqL : List Value → List Value → Bool
  | [], [] => true
  | x :: xs, y :: ys => vbeq x y && vbeqL xs ys
  | _, _ => false
  vbeqD : List (Value × Value) → List (Value × Value) → Bool
  | [], [] => true
  | (k, v) :: xs, (k2, v2) :: ys => vbeq k k2 && vbeq v v2 && vbeqD xs ys
  | _, _ => false

theorem vbeq_iff : (a b : Value) → (vbeq a b = true ↔ a = b)
  | .none, .none => by simp [vbeq]
  | .none, .bool _ | .none, .int _ | .none, .str _ | .none, .list _ | .none, .dict _ => by simp [vbeq]
  | .bool _, .none | .bool _, .int _ | .bool _, .str _ | .bool _, .list _ | .bool _, .dict _ => by simp [vbeq]
  | .bool _, .bool _ => by simp [vbeq]
  | .int _, .none | .int _, .bool _ | .int _, .str _ | .int _, .list _ | .int _, .dict _ => by simp [vbeq]
  | .int _, .int _ => by simp [vbeq]
  | .str _, .none | .str _, .bool _ | .str _, .int _ | .str _, .list _ | .str _, .dict _ => by simp [vbeq]
  | .str _, .str _ => by simp [vbeq]
  | .list _, .none | .list _, .bool _ | .list _, .int _ | .list _, .str _ | .list _, .dict _ => by simp [vbeq]
  | .list a, .list b => by
      simp only [vbeq, Value.list.injEq]
      exact vbeqL_iff a b
  | .dict _, .none | .dict _, .bool _ | .dict _, .int _ | .dict _, .str _ | .dict _, .list _ => by simp [vbeq]
  | .dict a, .dict b => by
      simp only [vbeq, Value.dict.injEq]
      exact vbeqD_iff a b
where
  vbeqL_iff : (a b : List Value) → (vbeq.vbeqL a b = true ↔ a = b)
  | [], [] => by simp [vbeq.vbeqL]
  | [], _ :: _ => by simp [vbeq.vbeqL]
  | _ :: _, [] => by simp [vbeq.vbeqL]
  | x :: xs, y :: ys => by
      simp only [vbeq.vbeqL, Bool.and_eq_true, List.cons.injEq]
      exact and_congr (vbeq_iff x y) (vbeqL_iff xs ys)
  vbeqD_iff : (a b : List (Value × Value)) → (vbeq.vbeqD a b = true ↔ a = b)
  | [], [] => by simp [vbeq.vbeqD]
  | [], _ :: _ => by simp [vbeq.vbeqD]
  | _ :: _, [] => by simp [vbeq.vbeqD]
  | (k, v) :: xs, (k2, v2) :: ys => by
      simp only [vbeq.vbeqD, Bool.and_eq_true, List.cons.injEq, Prod.mk.injEq,
        vbeq_iff k k2, vbeq_iff v v2, vbeqD_iff xs ys, and_assoc]

instance : DecidableEq Value := fun a b => decidable_of_iff (vbeq a b = true) (vbeq_iff a b)

/-- A Python exception class, as far as the saltcheck code distinguishes
them in `try`/`except` clauses. -/
inductive PyErr where
  | valueError
  | typeError
  | keyError
  | attributeError
  | unboundLocalError
  | ioError
deriving DecidableEq

/-- Python truthiness (`bool(x)` / `if x:`). -/
def pyTruthy : Value → Bool
  | .none => false
  | .bool b => b
  | .int n => n != 0
  | .str s => s != ""
  | .list l => !l.isEmpty
  | .dict l => !l.isEmpty

/-- Python `==` on the embedded values.  Booleans compare equal to the
integers 0/1 exactly as in Python; values of otherwise different types are
unequal.  Dict equality is compared entrywise in order (the dicts built by
this module are produced in a fixed insertion order). -/
def pyEq : Value → Value → Bool
  | .none, .none => true
  | .bool a, .bool b => a == b
  | .bool a, .int n => (if a then (1 : Int) else 0) == n
  | .int n, .bool a => n == (if a then (1 : Int) else 0)
  | .int a, .int b => a == b
  | .str a, .str b => a == b
  | .list a, .list b => pyEqL a b
  | .dict a, .dict b => pyEqD a b
  | _, _ => false
where
  pyEqL : List Value → List Value → Bool
  | [], [] => true
  | x :: xs, y :: ys => pyEq x y && pyEqL xs ys
  | _, _ => false
  pyEqD : List (Value × Value) → List (Value × Value) → Bool
  | [], [] => true
  | (k, v) :: xs, (k2, v2) :: ys => pyEq k k2 && pyEq v v2 && pyEqD xs ys
  | _, _ => false

/-- Python `repr` of a value (strings are shown in single quotes; escape
sequences inside strings are not modelled since no test data here needs
them). -/
def pyRepr : Value → String
  | .none => "None"
  | .bool true => "True"
  | .bool false => "False"
  | .int n => toString n
  | .str s => squote ++ s ++ squote
  | .list l => "[" ++ strJoin (reprL l) ++ "]"
  | .dict l => "\x7b" ++ strJoin (reprD l) ++ "\x7d"
where
  squote : String := ⟨[Char.ofNat 39]⟩
  strJoin : List String → String
  | [] => ""
  | [x] => x
  | x :: xs => x ++ ", " ++ strJoin xs
  reprL : List Value → List String
  | [] => []
  | x :: xs => pyRepr x :: reprL xs
  reprD : List (Value × Value) → List String
  | [] => []
  | (k, v) :: xs => (pyRepr k ++ ": " ++ pyRepr v) :: reprD xs

/-- Python `str(x)`, as used by `'...'.format(x)` in the failure messages:
identical to `repr` except on strings themselves. -/
def pyStr : Value → String
  | .str s => s
  | v => pyRepr v

/-- Python `s.split(sep)` worker over character lists (non-overlapping
left-to-right occurrences of the separator; fuel is the string length,
which bounds the number of steps). -/
def splitChars (sep : List Char) : Nat → List Char → List Char → List (List Char)
  | _ + 1, acc, [] => [acc.reverse]
  | fuel + 1, acc, c :: rest =>
      if sep.isPrefixOf (c :: rest) then
        acc.reverse :: splitChars sep fuel [] ((c :: rest).drop sep.length)
      else
        splitChars sep fuel (c :: acc) rest
  | 0, acc, _ => [acc.reverse]

/-- Python `s.split(sep)` for a non-empty separator (`''.split('.') = ['']`,
`'a.b'.split('.') = ['a','b']`, `'echo'.split('.') = ['echo']`). -/
def pySplit (s sep : String) : List String :=
  if sep.data = [] then [s]
  else (splitChars sep.data (s.data.length + 1) [] s.data).map (fun l => ⟨l⟩)

/-- Python `s.replace(old, new)` for single-character patterns (the source
only uses `state_name.replace('.', '/')`). -/
def pyReplaceChar (s : String) (old new : Char) : String :=
  ⟨s.data.map (fun c => if c = old then new else c)⟩

/-- Python `s.endswith(suffix)`. -/
def pyEndsWith (s suffix : String) : Bool := suffix.data.isSuffixOf s.data

/-- Python `sep.join(parts)`. -/
def pyJoin (sep : String) : List String → String
  | [] => ""
  | [x] => x
  | x :: xs => x ++ sep ++ pyJoin sep xs

/-- Substring search worker: does `needle` occur in `haystack`? -/
def charsContain (needle : List Char) : List Char → Bool
  | [] => needle.isEmpty
  | c :: rest => needle.isPrefixOf (c :: rest) || charsContain needle rest

/-- Python `needle in haystack` for two strings (substring containment). -/
def pyStrContains (haystack needle : String) : Bool := charsContain needle.data haystack.data

/-- `os.path.join(a, b)` on POSIX: an absolute second component replaces the
first, an empty first component contributes no separator. -/
def osPathJoin2 (a b : String) : String :=
  if b.data.head? = some '/' then b
  else if a = "" then b
  else if a.data.getLast? = some '/' then a ++ b
  else a ++ "/" ++ b

/-- `os.path.join(a, b, c)` on POSIX. -/
def osPathJoin3 (a b c : String) : String := osPathJoin2 (osPathJoin2 a b) c

/-- `os.path.normpath` for relative POSIX paths: collapses repeated
separators and resolves `.` and `..` components lexically. -/
def osPathNormpath (p : String) : String :=
  let comps := (pySplit p "/").filter (fun c => c ≠ "" && c ≠ ".")
  let stack := comps.foldl
    (fun (st : List String) c =>
      if c = ".." then
        match st with
        | [] => [".."]
        | top :: rest => if top = ".." then c :: st else rest
      else c :: st) []
  let out := pyJoin "/" stack.reverse
  if p.data.head? = some '/' then "/" ++ out
  else if out = "" then "." else out

/-- The runtime type of a value, i.e. Python `type(x)` restricted to the
embedded universe. -/
inductive PyType where
  | noneType
  | bool
  | int
  | str
  | list
  | dict
deriving DecidableEq

def typeOf : Value → PyType
  | .none => .noneType
  | .bool _ => .bool
  | .int _ => .int
  | .str _ => .str
  | .list _ => .list
  | .dict _ => .dict

/-- Helper for `int(s)`: a non-empty all-digit character list as a number. -/
def digitsToNat : List Char → Option Nat
  | [] => Option.none
  | l => l.foldl (fun acc c => match acc with
      | Option.none => Option.none
      | some n => if c.isDigit then some (n * 10 + (c.toNat - 48)) else Option.none)
      (some 0)

/-- Python `int(s)` on a string: surrounding whitespace is stripped, an
optional single sign is allowed, then at least one decimal digit
(returns `Option.none` where Python raises `ValueError`). -/
def pyParseInt (s : String) : Option Int :=
  let isWs := fun c => c = ' ' || c = '\t' || c = '\n' || c = '\r'
  let l := (s.data.dropWhile isWs).reverse.dropWhile isWs |>.reverse
  match l with
  | '+' :: rest => (digitsToNat rest).map Int.ofNat
  | '-' :: rest => (digitsToNat rest).map (fun n => -(n : Int))
  | rest => (digitsToNat rest).map Int.ofNat

/-- Whether a value may be a dict key (Python hashability): lists and dicts
are unhashable. -/
def pyHashable : Value → Bool
  | .list _ => false
  | .dict _ => false
  | _ => true

/-- `dict(l)` from a list: every element must be a 2-element sequence (a
pair list, or a 2-character string) whose first component is hashable. -/
def pyDictPairs : List Value → Except PyErr (List (Value × Value))
  | [] => .ok []
  | .list [k, v] :: rest =>
      if pyHashable k then (pyDictPairs rest).map (fun d => (k, v) :: d)
      else .error .typeError
  | .list _ :: _ => .error .valueError
  | .str s :: rest =>
      match s.data with
      | [a, b] => (pyDictPairs rest).map (fun d => (.str ⟨[a]⟩, .str ⟨[b]⟩) :: d)
      | _ => .error .valueError
  | _ :: _ => .error .typeError

/-- Calling a type as a constructor, Python `T(x)`: `bool(x)` is truthiness
and never fails; `int(x)` parses strings (`ValueError` on junk) and rejects
non-numbers (`TypeError`); `str(x)` stringifies; `list(x)` requires an
iterable; `dict(x)` accepts a dict, an empty string, or a list of 2-element
pairs with hashable keys; `NoneType(x)` rejects its argument. -/
def pyConstruct : PyType → Value → Except PyErr Value
  | .bool, v => .ok (.bool (pyTruthy v))
  | .int, v =>
      match v with
      | .bool b => .ok (.int (if b then 1 else 0))
      | .int n => .ok (.int n)
      | .str s => match pyParseInt s with
          | some n => .ok (.int n)
          | Option.none => .error .valueError
      | _ => .error .typeError
  | .str, v => .ok (.str (pyStr v))
  | .list, v =>
      match v with
      | .str s => .ok (.list (s.data.map (fun c => .str ⟨[c]⟩)))
      | .list l => .ok (.list l)
      | .dict l => .ok (.list (l.map (·.1)))
      | _ => .error .typeError
  | .dict, v =>
      match v with
      | .dict l => .ok (.dict l)
      | .str s => if s = "" then .ok (.dict []) else .error .valueError
      | .list l => (pyDictPairs l).map .dict
      | _ => .error .typeError
  | .noneType, _ => .error .typeError

/-- Python `<` on the embedded values: numbers (with bools as 0/1) compare
numerically, strings and lists lexicographically; any other combination
raises `TypeError`, as in Python 3. -/
def pyLt : Value → Value → Except PyErr Bool
  | .bool a, .bool b => .ok (decide ((if a then (1 : Int) else 0) < (if b then 1 else 0)))
  | .bool a, .int n => .ok (decide ((if a then (1 : Int) else 0) < n))
  | .int n, .bool b => .ok (decide (n < (if b then (1 : Int) else 0)))
  | .int a, .int b => .ok (decide (a < b))
  | .str a, .str b => .ok (decide (a < b))
  | .list a, .list b => pyLtL a b
  | _, _ => .error .typeError
where
  pyLtL : List Value → List Value → Except PyErr Bool
  | [], [] => .ok false
  | [], _ :: _ => .ok true
  | _ :: _, [] => .ok false
  | x :: xs, y :: ys => if pyEq x y then pyLtL xs ys else pyLt x y

/-- Python `x in c` (membership): substring test for strings, element test
for lists, key test for dicts; other containers raise `TypeError`. -/
def pyIn (x c : Value) : Except PyErr Bool :=
  match c with
  | .str s => match x with
      | .str sub => .ok (pyStrContains s sub)
      | _ => .error .typeError
  | .list l => .ok (l.any (fun e => pyEq x e))
  | .dict l => .ok (l.any (fun p => pyEq x p.1))
  | _ => .error .typeError

/-- First value stored under string key `k` in a Python dict (hash lookup
with `==` key comparison). -/
def dLookup (l : List (Value × Value)) (k : String) : Option Value :=
  match l with
  | [] => Option.none
  | (k2, v) :: rest => if pyEq (.str k) k2 then some v else dLookup rest k

/-- Python `d.get(k, default)` on a dict. -/
def dGetD (l : List (Value × Value)) (k : String) (d : Value) : Value :=
  (dLookup l k).getD d

/-- Python `k in d.keys()` on a dict. -/
def dHasKey (l : List (Value × Value)) (k : String) : Bool :=
  (dLookup l k).isSome

/-- Python `d[k]` on a dict (raises `KeyError` when missing). -/
def dItem (l : List (Value × Value)) (k : String) : Except PyErr Value :=
  match dLookup l k with
  | some v => .ok v
  | Option.none => .error .keyError

/-- Python `d[k] = v`: replace the value at an existing key in place, or
append a new entry; item assignment on a non-dict raises `TypeError`. -/
def pySetItem (v : Value) (k : String) (x : Value) : Except PyErr Value :=
  match v with
  | .dict l => .ok (.dict (setPair l))
  | _ => .error .typeError
where
  setPair : List (Value × Value) → List (Value × Value)
  | [] => [(.str k, x)]
  | (k2, v2) :: rest => if pyEq (.str k) k2 then (k2, x) :: rest else (k2, v2) :: setPair rest

/-- Python `d.pop(k, None)`: remove the entry when present; calling `.pop`
on a non-dict raises `AttributeError`. -/
def pyPop (v : Value) (k : String) : Except PyErr Value :=
  match v with
  | .dict l => .ok (.dict (removePair l))
  | _ => .error .attributeError
where
  removePair : List (Value × Value) → List (Value × Value)
  | [] => []
  | (k2, v2) :: rest => if pyEq (.str k) k2 then rest else (k2, v2) :: removePair rest

def isDict : Value → Bool
  | .dict _ => true
  | _ => false

/-- The external collaborators the `SaltCheck` class reaches through
`__salt__` and its salt caller: module introspection for validation
(`sys.list_modules` / `sys.list_functions`, the latter `Option.none` when
the lookup raises a `SaltException`) and the operation invoker
(`salt_lc.cmd`). -/
structure CheckEnv where
  list_modules : List String
  list_functions : String → Option (List String)
  cmd : Value → List Value → List (String × Value) → Except PyErr Value

namespace SaltCheck

/-- `self.assertions_list` from `SaltCheck.__init__`. -/
def assertions_list : List String :=
  ["assertEqual", "assertNotEqual",
   "assertTrue", "assertFalse",
   "assertIn", "assertNotIn",
   "assertGreater",
   "assertGreaterEqual",
   "assertLess", "assertLessEqual",
   "assertEmpty", "assertNotEmpty"]

/-- `_is_valid_module`: the namespace segment is in the minion's module
list. -/
def _is_valid_module (env : CheckEnv) (module : String) : Bool :=
  env.list_modules.contains module

/-- `_is_valid_function`: `module.function` is in `sys.list_functions`;
when that lookup raises, the fallback list
`["unable to look up functions"]` is searched instead. -/
def _is_valid_function (env : CheckEnv) (module_name function : String) : Bool :=
  ((env.list_functions module_name).getD ["unable to look up functions"]).contains
    (module_name ++ "." ++ function)

/-- The `if m_and_f:` block of `__is_valid_test` (lines 520-531): one point
for a truthy operation string, then `module, function = m_and_f.split('.')`
(a `ValueError` unless the split has exactly two parts; `AttributeError`
for a truthy non-string), then one point each for a valid module and a
valid function. -/
def module_function_points (env : CheckEnv) (m_and_f : Value) : Except PyErr Nat :=
  if pyTruthy m_and_f then
    match m_and_f with
    | .str s =>
        match pySplit s "." with
        | [module, function] =>
            .ok (1 + (if _is_valid_module env module then 1 else 0)
                   + (if _is_valid_function env module function then 1 else 0))
        | _ => .error .valueError
    | _ => .error .attributeError
  else .ok 0

/-- The required-points threshold of `__is_valid_test` (lines 508-518). -/
def required_total (l : List (Value × Value)) : Nat :=
  if pyTruthy (dGetD l "skip" (.bool false)) then 0
  else if pyEq (dGetD l "module_and_function" .none) (.str "saltcheck.state_apply") then 2
  else if ["assertEmpty", "assertNotEmpty", "assertTrue", "assertFalse"].any
      (fun s => pyEq (dGetD l "assertion" .none) (.str s)) then 4
  else 6

/-- `SaltCheck.__is_valid_test` (lines 488-552): accumulate points for the
operation, module, function, assertion, expected-return key and
expected-return value, and compare against the required threshold.
Calling `.get` on a non-dict raises `AttributeError`. -/
def __is_valid_test (env : CheckEnv) (test_dict : Value) : Except PyErr Bool :=
  match test_dict with
  | .dict l =>
      match module_function_points env (dGetD l "module_and_function" .none) with
      | .error e => .error e
      | .ok mf_points =>
          let tots := mf_points
            + (if assertions_list.any (fun s => pyEq (dGetD l "assertion" .none) (.str s)) then 1 else 0)
            + (if dHasKey l "expected-return" then 1 else 0)
            + (if dGetD l "expected-return" .none ≠ .none then 1 else 0)
          .ok (decide (tots ≥ required_total l))
  | _ => .error .attributeError

/-- The `expected == "False" and ret_type == bool` special case at the top
of `_cast_expected_to_returned_type` (lines 702-703). -/
def false_adjust (expected returned : Value) : Value :=
  if pyEq expected (.str "False") && typeOf returned == PyType.bool then .bool false else expected

/-- `SaltCheck._cast_expected_to_returned_type` (lines 693-712): cast the
expected value to the runtime type of the returned value; only a
`ValueError` from the cast is caught (the original expected value is then
returned unchanged) — any other exception, e.g. the `TypeError` from
`int(None)` or `list(5)`, propagates. -/
def _cast_expected_to_returned_type (expected returned : Value) : Except PyErr Value :=
  if returned = .none then .ok expected
  else
    match pyConstruct (typeOf returned) (false_adjust expected returned) with
    | .ok v => .ok v
    | .error .valueError => .ok expected
    | .error e => .error e

/-- `SaltCheck.__assert_equal`. -/
def __assert_equal (expected returned assert_print_result : Value) : String :=
  if pyEq expected returned then "Pass"
  else "Fail: " ++ (if pyTruthy assert_print_result
    then pyStr expected ++ " is not equal to " ++ pyStr returned
    else "Result is not equal")

/-- `SaltCheck.__assert_not_equal`. -/
def __assert_not_equal (expected returned assert_print_result : Value) : String :=
  if !pyEq expected returned then "Pass"
  else "Fail: " ++ (if pyTruthy assert_print_result
    then pyStr expected ++ " is equal to " ++ pyStr returned
    else "Result is equal")

/-- `SaltCheck.__assert_true`: `returned is True` is an identity test
against the boolean singleton. -/
def __assert_true (returned : Value) : String :=
  if returned = .bool true then "Pass"
  else "Fail: " ++ pyStr returned ++ " not True"

/-- `SaltCheck.__assert_false` (lines 757-772): a string argument is first
coerced with `bool(...)` (which never raises, so the `except ValueError`
re-raise is dead code), then `returned is False` is an identity test
against the boolean singleton; the failure message shows the coerced
value. -/
def __assert_false (returned : Value) : String :=
  let returned := match returned with
    | .str s => .bool (s ≠ "")
    | v => v
  if returned = .bool false then "Pass"
  else "Fail: " ++ pyStr returned ++ " not False"

/-- `SaltCheck.__assert_in`: only an `AssertionError` is caught, so the
`TypeError` of an impossible membership test propagates. -/
def __assert_in (expected returned assert_print_result : Value) : Except PyErr String :=
  match pyIn expected returned with
  | .error e => .error e
  | .ok b =>
      if b then .ok "Pass"
      else .ok ("Fail: " ++ (if pyTruthy assert_print_result
        then pyStr expected ++ " not found in " ++ pyStr returned
        else "Result not found"))

/-- `SaltCheck.__assert_not_in`. -/
def __assert_not_in (expected returned assert_print_result : Value) : Except PyErr String :=
  match pyIn expected returned with
  | .error e => .error e
  | .ok b =>
      if !b then .ok "Pass"
      else .ok ("Fail: " ++ (if pyTruthy assert_print_result
        then pyStr expected ++ " was found in " ++ pyStr returned
        else "Result was found"))

/-- `SaltCheck.__assert_greater`: `expected > returned` (note the failure
message really is `"... not False"` in the source). -/
def __assert_greater (expected returned : Value) : Except PyErr String :=
  (pyLt returned expected).map (fun b =>
    if b then "Pass" else "Fail: " ++ pyStr returned ++ " not False")

/-- `SaltCheck.__assert_greater_equal`: `expected >= returned`. -/
def __assert_greater_equal (expected returned : Value) : Except PyErr String :=
  (pyLt expected returned).map (fun b =>
    if !b then "Pass" else "Fail: " ++ pyStr returned ++ " not False")

/-- `SaltCheck.__assert_less`: `expected < returned`. -/
def __assert_less (expected returned : Value) : Except PyErr String :=
  (pyLt expected returned).map (fun b =>
    if b then "Pass" else "Fail: " ++ pyStr returned ++ " not False")

/-- `SaltCheck.__assert_less_equal`: `expected <= returned`. -/
def __assert_less_equal (expected returned : Value) : Except PyErr String :=
  (pyLt returned expected).map (fun b =>
    if !b then "Pass" else "Fail: " ++ pyStr returned ++ " not False")

/-- `SaltCheck.__assert_empty`. -/
def __assert_empty (returned : Value) : String :=
  if !pyTruthy returned then "Pass"
  else "Fail: " ++ pyStr returned ++ " is not empty"

/-- `SaltCheck.__assert_not_empty`. -/
def __assert_not_empty (returned : Value) : String :=
  if pyTruthy returned then "Pass"
  else "Fail: value is empty"

end SaltCheck

/-- Python `*args` unpacking: the argument must be iterable (list elements,
string characters, dict keys); anything else raises `TypeError`. -/
def pyUnpackArgs : Value → Except PyErr (List Value)
  | .list l => .ok l
  | .str s => .ok (s.data.map (fun c => .str ⟨[c]⟩))
  | .dict l => .ok (l.map (·.1))
  | _ => .error .typeError

/-- Python `**kwargs` unpacking: the argument must be a mapping with string
keys; anything else raises `TypeError`. -/
def pyUnpackKwargs : Value → Except PyErr (List (String × Value))
  | .dict l =>
      let rec go : List (Value × Value) → Except PyErr (List (String × Value))
        | [] => .ok []
        | (.str k, v) :: rest => (go rest).map (fun r => (k, v) :: r)
        | _ :: _ => .error .typeError
      go l
  | _ => .error .typeError

/-- Modelled from the spec: `salt.utils.data.traverse_dict_and_list` is an
external collaborator whose code is not part of this repository's source
file.  Per the spec, section extraction means to "extract a nested value by
traversing the mapping using the section path split on
`assertion_section_delimiter`; missing path yields a sentinel 'not found'
value (false) rather than raising". -/
def traverse_dict_and_list (data key default delimiter : Value) : Value :=
  match key, delimiter with
  | .str k, .str d => walk default (pySplit k d) data
  | _, _ => default
where
  walk (default : Value) : List String → Value → Value
  | [], v => v
  | p :: ps, v =>
      match v with
      | .dict l =>
          match dLookup l p with
          | some v2 => walk default ps v2
          | Option.none => default
      | _ => default

namespace SaltCheck

/-- `SaltCheck._call_salt_command` (lines 554-584): dispatch the operation
through the salt caller choosing one of the four call shapes, then apply
section extraction when the result is a dict and a section was given. -/
def _call_salt_command (env : CheckEnv)
    (fn args kwargs assertion_section assertion_section_delimiter : Value) :
    Except PyErr Value :=
  let callE : Except PyErr Value :=
    if pyTruthy args && pyTruthy kwargs then
      match pyUnpackArgs args with
      | .error e => .error e
      | .ok a =>
          match pyUnpackKwargs kwargs with
          | .error e => .error e
          | .ok k => env.cmd fn a k
    else if pyTruthy args then
      match pyUnpackArgs args with
      | .error e => .error e
      | .ok a => env.cmd fn a []
    else if pyTruthy kwargs then
      match pyUnpackKwargs kwargs with
      | .error e => .error e
      | .ok k => env.cmd fn [] k
    else env.cmd fn [] []
  match callE with
  | .error e => .error e
  | .ok value =>
      if isDict value && pyTruthy assertion_section then
        .ok (traverse_dict_and_list value assertion_section (.bool false) assertion_section_delimiter)
      else .ok value

/-- The `pillar-data` merge of `run_test` (lines 599-608): a truthy
`pillar-data` is written into `kwargs['pillar']` (creating the dict when
`kwargs` is falsy), otherwise a stale `pillar` key is popped from a truthy
`kwargs`. -/
def merged_kwargs (l : List (Value × Value)) : Except PyErr Value :=
  let kwargs := dGetD l "kwargs" .none
  let pillar_data := dGetD l "pillar-data" .none
  if pyTruthy pillar_data then
    pySetItem (if !pyTruthy kwargs then .dict [] else kwargs) "pillar" pillar_data
  else if pyTruthy kwargs then pyPop kwargs "pillar"
  else .ok kwargs

/-- The assertion selection of `run_test` (lines 610-613): the apply alias
`saltcheck.state_apply` forces `assertNotEmpty`; otherwise the declared
`test_dict['assertion']` is used (a `KeyError` when absent). -/
def selected_assertion (mod_and_func : Value) (l : List (Value × Value)) : Except PyErr Value :=
  if pyEq mod_and_func (.str "saltcheck.state_apply") then .ok (.str "assertNotEmpty")
  else dItem l "assertion"

/-- The assertions that skip expected-value coercion in `run_test`
(line 621). -/
def coercion_exempt (assertion : Value) : Bool :=
  ["assertIn", "assertNotIn", "assertEmpty", "assertNotEmpty",
   "assertTrue", "assertFalse"].any (fun s => pyEq assertion (.str s))

/-- The `if`/`elif` assertion dispatch of `run_test` (lines 624-661): the
pair is (the `assertion_desc` local, if it was assigned; the `value`
local).  The final `else` leaves `assertion_desc` unassigned. -/
def assertion_dispatch (assertion expected_return actual_return assert_print_result : Value) :
    Option String × Except PyErr String :=
  if pyEq assertion (.str "assertEqual") then
    (some "==", .ok (__assert_equal expected_return actual_return assert_print_result))
  else if pyEq assertion (.str "assertNotEqual") then
    (some "!=", .ok (__assert_not_equal expected_return actual_return assert_print_result))
  else if pyEq assertion (.str "assertTrue") then
    (some "True is", .ok (__assert_true actual_return))
  else if pyEq assertion (.str "assertFalse") then
    (some "False is", .ok (__assert_false actual_return))
  else if pyEq assertion (.str "assertIn") then
    (some "IS IN", __assert_in expected_return actual_return assert_print_result)
  else if pyEq assertion (.str "assertNotIn") then
    (some "IS NOT IN", __assert_not_in expected_return actual_return assert_print_result)
  else if pyEq assertion (.str "assertGreater") then
    (some ">", __assert_greater expected_return actual_return)
  else if pyEq assertion (.str "assertGreaterEqual") then
    (some ">=", __assert_greater_equal expected_return actual_return)
  else if pyEq assertion (.str "assertLess") then
    (some "<", __assert_less expected_return actual_return)
  else if pyEq assertion (.str "assertLessEqual") then
    (some "<=", __assert_less_equal expected_return actual_return)
  else if pyEq assertion (.str "assertEmpty") then
    (some "IS EMPTY:", .ok (__assert_empty actual_return))
  else if pyEq assertion (.str "assertNotEmpty") then
    (some "IS NOT EMPTY:", .ok (__assert_not_empty actual_return))
  else (Option.none, .ok "Fail - bad assertion")

/-- Python `round(x, 4)` on the elapsed seconds (modelled with rational
arithmetic and round-half-up; the skip path returns the literal `0.0`
without rounding). -/
def round4 (x : Rat) : Rat := ((round (x * 10000) : Int) : Rat) / 10000

/-- The result record built by `run_test` (lines 664-691): `duration`, the
optional `module.function [args]` entry (key and value), the optional
`saltcheck assertion` entry, and `status`. -/
structure RunResult where
  duration : Rat
  module_line : Option (String × String)
  saltcheck_assertion : Option String
  status : String
deriving DecidableEq

/-- The result-building tail of `run_test` (lines 664-691).  The `Option`
arguments model which locals were bound on the path that reached this
point; line 681 reads `assertion_desc` unconditionally, so a path on which
it was never assigned (an invalid test, or the `Fail - bad assertion`
branch) raises `UnboundLocalError`. -/
def build_result (elapsed : Rat)
    (mod_and_func? args? assertion_section? : Option Value)
    (assertion_desc? : Option String)
    (expected_return? actual_return? : Option Value)
    (value : String) : Except PyErr RunResult :=
  let duration := round4 elapsed
  let module_line : Option (String × String) :=
    match mod_and_func?, args? with
    | some m, some a =>
        let reprs : String × String :=
          match assertion_section? with
          | some sec => if sec ≠ .none then (" => section", " => " ++ pyStr sec) else ("", "")
          | Option.none => ("", "")
        some ("module.function [args]" ++ reprs.1, pyStr m ++ " " ++ pyStr a ++ reprs.2)
    | _, _ => Option.none
  match assertion_desc? with
  | Option.none => .error .unboundLocalError
  | some assertion_desc =>
      let sep := if assertion_desc = "IS IN" || assertion_desc = "IS NOT IN" then "\n\n" else " "
      let saltcheck_assertion : Option String :=
        match expected_return?, actual_return? with
        | some e, some a =>
            some ((if e = .none then "" else pyStr e ++ sep) ++ assertion_desc ++ sep ++ pyStr a)
        | _, _ => Option.none
      .ok ⟨duration, module_line, saltcheck_assertion, value⟩

/-- `SaltCheck.run_test` (lines 586-691).  `elapsed` is the wall-clock time
`end - start` measured by the two `time.time()` calls, passed in as an
explicit input of the model; the skip path returns before the second
measurement with the literal duration `0.0`. -/
def run_test (env : CheckEnv) (elapsed : Rat) (test_dict : Value) : Except PyErr RunResult :=
  match __is_valid_test env test_dict with
  | .error e => .error e
  | .ok true =>
      match test_dict with
      | .dict l =>
          if pyTruthy (dGetD l "skip" (.bool false)) then
            .ok ⟨0, Option.none, Option.none, "Skip"⟩
          else
            match dItem l "module_and_function" with
            | .error e => .error e
            | .ok mod_and_func =>
                let assertion_section := dGetD l "assertion_section" .none
                let assertion_section_delimiter := dGetD l "assertion_section_delimiter" (.str ":")
                let args := dGetD l "args" .none
                match merged_kwargs l with
                | .error e => .error e
                | .ok kwargs =>
                    match selected_assertion mod_and_func l with
                    | .error e => .error e
                    | .ok assertion =>
                        let expected_return := dGetD l "expected-return" .none
                        let assert_print_result := dGetD l "print_result" (.bool true)
                        match _call_salt_command env mod_and_func args kwargs
                            assertion_section assertion_section_delimiter with
                        | .error e => .error e
                        | .ok actual_return =>
                            match (if !coercion_exempt assertion then
                                _cast_expected_to_returned_type expected_return actual_return
                              else .ok expected_return) with
                            | .error e => .error e
                            | .ok expected_return =>
                                match assertion_dispatch assertion expected_return actual_return
                                    assert_print_result with
                                | (_, .error e) => .error e
                                | (assertion_desc?, .ok value) =>
                                    build_result elapsed (some mod_and_func) (some args)
                                      (some assertion_section) assertion_desc?
                                      (some expected_return) (some actual_return) value
      | _ => .error .attributeError
  | .ok false =>
      build_result elapsed Option.none Option.none Option.none Option.none
        Option.none Option.none "Fail - invalid test"

end SaltCheck

/-- The external collaborators the `StateTestLoader` class reaches through
`__opts__` / `__salt__`: the minion options used for salt-ssh detection and
cache paths, JSON file reading (for the salt-ssh side channel), state
enumeration (`cp.list_states`), the low-state compiler
(`state.show_low_sls`), directory caching (`cp.cache_dir(path, saltenv,
include_pat='*.tst')`), configuration lookup (`config.get`) and the
renderer (`slsutil.renderer` followed by the `loads(dumps(...))`
round-trip). -/
structure LoaderEnv where
  pidfile : Value
  cachedir : String
  read_json : String → Except PyErr Value
  list_states : List String
  show_low_sls : String → List Value
  cache_dir : String → String → List String
  config_get : String → String → String
  render : String → List (String × Value)

/-- The mutable fields of a `StateTestLoader` instance.  `test_files` is a
Python `set` modelled as an insertion-ordered duplicate-free list;
`test_dict` is an `OrderedDict`. -/
structure StateTestLoader where
  test_files : List String
  test_dict : List (String × Value)
  saltenv : String
  saltcheck_test_location : String
deriving DecidableEq

namespace StateTestLoader

/-- `StateTestLoader.__init__`. -/
def init (env : LoaderEnv) : StateTestLoader :=
  ⟨[], [], "base", env.config_get "saltcheck_test_location" "saltcheck-tests"⟩

/-- Python `set.add` on the insertion-ordered model. -/
def setAdd (l : List String) (x : String) : List String :=
  if l.contains x then l else l ++ [x]

/-- Python `set.update` on the insertion-ordered model. -/
def setUnion (l : List String) (xs : List String) : List String :=
  xs.foldl setAdd l

/-- `OrderedDict.__setitem__`: replace the value at an existing key in
place, else append. -/
def odInsert (d : List (String × Value)) (k : String) (v : Value) : List (String × Value) :=
  match d with
  | [] => [(k, v)]
  | (k2, v2) :: rest => if k2 = k then (k2, v) :: rest else (k2, v2) :: odInsert rest k v

/-- The `for key, value in mydict.items(): self.test_dict[key] = value`
merge loop of `_load_file_salt_rendered`. -/
def odMerge (d : List (String × Value)) (ps : List (String × Value)) : List (String × Value) :=
  ps.foldl (fun d kv => odInsert d kv.1 kv.2) d

/-- `StateTestLoader._load_file_salt_rendered` (lines 899-909): render one
file and merge each rendered `name: definition` pair into the accumulating
ordered mapping (the `loads(dumps(...))` round-trip is the identity on the
embedded values). -/
def _load_file_salt_rendered (env : LoaderEnv) (test_dict : List (String × Value))
    (filepath : String) : List (String × Value) :=
  odMerge test_dict (env.render filepath)

/-- `StateTestLoader.load_test_suite` (lines 890-897): reset `test_dict`,
load every file of the working set in order, then clear the working set. -/
def load_test_suite (env : LoaderEnv) (st : StateTestLoader) : StateTestLoader :=
  { st with
    test_dict := st.test_files.foldl (fun d f => _load_file_salt_rendered env d f) [],
    test_files := [] }

/-- Python `list.remove(v)`: drop the first occurrence of the value, or
raise `ValueError` when it is absent. -/
def pyListRemove (l : List String) (v : String) : Except PyErr (List String) :=
  match l with
  | [] => .error .valueError
  | x :: xs => if x = v then .ok xs else (pyListRemove xs v).map (x :: ·)

/-- The inner `for sls_path_name in sls_path_names` body of
`add_test_files_for_sls` (lines 1052-1056): on a suffix match the file is
added to `test_files` and removed (first occurrence) from the candidate
pool. -/
def matchPatterns (sls_path_names : List String) (f : String)
    (files test_files : List String) : Except PyErr (List String × List String) :=
  match sls_path_names with
  | [] => .ok (files, test_files)
  | p :: ps =>
      if pyEndsWith f p then
        match pyListRemove files f with
        | .error e => .error e
        | .ok files2 => matchPatterns ps f files2 (setAdd test_files f)
      else matchPatterns ps f files test_files

/-- The outer `for this_cached_test_file in cached_copied_files` loop of
`add_test_files_for_sls` (lines 1051-1056), with CPython's semantics of
removing from the list being iterated: iteration proceeds by index, so a
removal shifts the remaining elements under the cursor.  The fuel is one
more than the initial list length, which bounds the number of index steps
(the index grows by one per step and the list never grows). -/
def matchLoop (pats : List String) : Nat → Nat → List String → List String →
    Except PyErr (List String × List String)
  | 0, _, files, tf => .ok (files, tf)
  | fuel + 1, i, files, tf =>
      if h : i < files.length then
        match matchPatterns pats (files.get ⟨i, h⟩) files tf with
        | .error e => .error e
        | .ok (files2, tf2) => matchLoop pats fuel (i + 1) files2 tf2
      else .ok (files, tf)

/-- The per-pass mutable locals of `add_test_files_for_sls`: the instance's
`test_files` set plus the local `processed_states` and
`cached_copied_files` lists. -/
structure ResolveState where
  test_files : List String
  processed_states : List Value
  cached_copied_files : List String
deriving DecidableEq

/-- Truthiness of the `this_cache_ret` local (`None` or a file list). -/
def optTruthy : Option (List String) → Bool
  | some (_ :: _) => true
  | _ => false

/-- One iteration of the `for low_data in ret` loop of
`StateTestLoader.add_test_files_for_sls` (lines 955-1056).  Returns the
list of paths passed to `cp.cache_dir` during this iteration (recorded for
the statements about fallback ordering; the source logs the same paths with
"looking in %s to cache tests") together with either the propagated
exception or the updated state and a continuation flag (`false` models the
early `return` taken for a non-dict entry). -/
def process_low_data (env : LoaderEnv) (saltenv loc : String) (check_all salt_ssh : Bool)
    (rs : ResolveState) (low_data : Value) :
    List String × Except PyErr (ResolveState × Bool) :=
  match low_data with
  | .dict low =>
      if dHasKey low "__sls__" then
        match dItem low "__sls__" with
        | .error e => ([], .error e)
        | .ok state_name =>
            -- the `.replace('.', '/')` in the level-(a) path construction is
            -- the first attribute access on `state_name`; a non-string
            -- `__sls__` raises `AttributeError` there
            match state_name with
            | .str s0 =>
                let seen_a := rs.processed_states.any (fun p => pyEq state_name p)
                let processed_a :=
                  if seen_a then rs.processed_states else rs.processed_states ++ [state_name]
                let sls_path_a := "salt://" ++ pyReplaceChar s0 '.' '/' ++ "/" ++ loc
                let (log_a, tcr_a) :=
                  if !seen_a then ([sls_path_a], some (env.cache_dir sls_path_a saltenv))
                  else ([], (Option.none : Option (List String)))
                if optTruthy tcr_a then
                  finish_low_data loc check_all salt_ssh s0 log_a
                    processed_a (rs.cached_copied_files ++ tcr_a.getD []) tcr_a rs.test_files
                else
                  -- level (b): parent directory of the state path
                  let parts := pySplit s0 "."
                  let sls_split := parts.dropLast
                  let name_b : Value := .str (pyJoin "." sls_split)
                  let seen_b := processed_a.any (fun p => pyEq name_b p)
                  let copy_b := !seen_b && !seen_a
                  let processed_b := if seen_b then processed_a else processed_a ++ [name_b]
                  let sls_path_b := "salt://" ++ pyJoin "/" sls_split ++ "/" ++ loc
                  let (log_b, tcr_b) :=
                    if copy_b then ([sls_path_b], some (env.cache_dir sls_path_b saltenv))
                    else ([], tcr_a)
                  if optTruthy tcr_b then
                    finish_low_data loc check_all salt_ssh s0 (log_a ++ log_b)
                      processed_b (rs.cached_copied_files ++ tcr_b.getD []) tcr_b rs.test_files
                  else
                    -- level (c): the top-level namespace directory
                    let name_c : Value := .str (parts.headD "")
                    let seen_c := processed_b.any (fun p => pyEq name_c p)
                    let copy_c := !seen_c && copy_b
                    let processed_c := if seen_c then processed_b else processed_b ++ [name_c]
                    let sls_path_c := "salt://" ++ parts.headD "" ++ "/" ++ loc
                    let (log_c, tcr_c) :=
                      if copy_c then ([sls_path_c], some (env.cache_dir sls_path_c saltenv))
                      else ([], tcr_b)
                    let cached_c :=
                      if optTruthy tcr_c then rs.cached_copied_files ++ tcr_c.getD []
                      else rs.cached_copied_files
                    finish_low_data loc check_all salt_ssh s0
                      (log_a ++ log_b ++ log_c) processed_c cached_c tcr_c rs.test_files
            | _ => ([], .error .attributeError)
      else ([], .ok (rs, true))
  | _ => ([], .ok (rs, false))
where
  /-- The tail of the loop body after the three-level fallback (lines
  1026-1056): the `check_all` / salt-ssh additions to `test_files`, the two
  expected suffix patterns, and the match-and-remove pass over
  `cached_copied_files`. -/
  finish_low_data (loc : String) (check_all salt_ssh : Bool)
      (s0 : String) (log : List String) (processed : List Value)
      (cached : List String) (tcr : Option (List String)) (test_files : List String) :
      List String × Except PyErr (ResolveState × Bool) :=
    let test_files1 :=
      if optTruthy tcr && check_all then setUnion test_files (tcr.getD []) else test_files
    let test_files2 :=
      if salt_ssh && check_all then
        setUnion test_files1 (cached.filter (fun f => pyEndsWith f ".tst"))
      else test_files1
    let split_sls := pySplit s0 "."
    let sls_path_names :=
      [osPathJoin3 (pyJoin "/" split_sls) (osPathNormpath loc) "init.tst",
       osPathJoin3 (pyJoin "/" split_sls.dropLast) (osPathNormpath loc)
         ((split_sls.getLastD "") ++ ".tst")]
    (log,
      match matchLoop sls_path_names (cached.length + 1) 0 cached test_files2 with
      | .error e => .error e
      | .ok (cached2, tf2) => .ok (⟨tf2, processed, cached2⟩, true))

/-- The `for low_data in ret` loop of `add_test_files_for_sls`, threading
the state and accumulating the cache-request log. -/
def resolve_loop (env : LoaderEnv) (saltenv loc : String) (check_all salt_ssh : Bool) :
    ResolveState → List String → List Value → List String × Except PyErr ResolveState
  | rs, logs, [] => (logs, .ok rs)
  | rs, logs, low :: rest =>
      match process_low_data env saltenv loc check_all salt_ssh rs low with
      | (lg, .error e) => (logs ++ lg, .error e)
      | (lg, .ok (rs2, true)) => resolve_loop env saltenv loc check_all salt_ssh rs2 (logs ++ lg) rest
      | (lg, .ok (rs2, false)) => (logs ++ lg, .ok rs2)

/-- A JSON array of strings from the salt-ssh side-channel files. -/
def jsonStringList : Value → Except PyErr (List String)
  | .list l =>
      let rec go : List Value → Except PyErr (List String)
        | [] => .ok []
        | .str s :: rest => (go rest).map (s :: ·)
        | _ :: _ => .error .typeError
      go l
  | _ => .error .typeError

/-- `StateTestLoader.add_test_files_for_sls` (lines 911-1056): detect
salt-ssh from the pid file option, enumerate the known states, build the
low-state plan (or a synthetic single entry when the name is not a state),
and run the per-entry fallback/caching/matching loop.  Returns the ordered
list of paths requested from `cp.cache_dir` together with either the
propagated exception or the updated loader. -/
def add_test_files_for_sls (env : LoaderEnv) (st : StateTestLoader)
    (sls_name : String) (check_all : Bool) :
    List String × Except PyErr StateTestLoader :=
  match pyIn (.str "running_data/var/run/salt-minion.pid") env.pidfile with
  | .error e => ([], .error e)
  | .ok salt_ssh =>
      let filesDir := osPathJoin3 (osPathJoin2 env.cachedir "files") st.saltenv ""
      let all_statesE : Except PyErr Value :=
        if salt_ssh then
          env.read_json (osPathJoin2 filesDir "cp_output.txt")
        else .ok (.list (env.list_states.map .str))
      match all_statesE with
      | .error e => ([], .error e)
      | .ok all_states =>
          let cachedE : Except PyErr (List String) :=
            if salt_ssh then
              match env.read_json (osPathJoin2 filesDir (sls_name ++ ".copy")) with
              | .error .ioError =>
                  let sls_root_name := pyJoin "." ((pySplit sls_name ".").dropLast)
                  match env.read_json (osPathJoin2 filesDir (sls_root_name ++ ".copy")) with
                  | .error e => .error e
                  | .ok v => jsonStringList v
              | .error e => .error e
              | .ok v => jsonStringList v
            else .ok []
          match cachedE with
          | .error e => ([], .error e)
          | .ok cached0 =>
              match pyIn (.str sls_name) all_states with
              | .error e => ([], .error e)
              | .ok is_state =>
                  let retE : Except PyErr (List Value) :=
                    if is_state then
                      if salt_ssh then
                        match env.read_json (osPathJoin2 filesDir (sls_name ++ ".low")) with
                        | .error e => .error e
                        | .ok (.list l) => .ok l
                        | .ok _ => .error .typeError
                      else .ok (env.show_low_sls sls_name)
                    else .ok [.dict [(.str "__sls__", .str sls_name)]]
                  match retE with
                  | .error e => ([], .error e)
                  | .ok ret =>
                      match resolve_loop env st.saltenv st.saltcheck_test_location check_all
                          salt_ssh ⟨st.test_files, [], cached0⟩ [] ret with
                      | (logs, .error e) => (logs, .error e)
                      | (logs, .ok rs) => (logs, .ok { st with test_files := rs.test_files })

end StateTestLoader

/-! Specification-side definitions (worded from the spec, for the refinement
statements) and the concrete fixtures used by witnesses and counterexamples. -/

/-- The operation-string shapes on which `m_and_f.split('.')` does not
raise inside the validator: a falsy value, or a string with exactly one
separator. -/
def op_shape_ok (m : Value) : Bool :=
  !pyTruthy m || (match m with | .str s => (pySplit s ".").length == 2 | _ => false)

/-- The validator score as the spec words it (C1): one point each for
operation present, valid namespace segment, valid verb, assertion in the
twelve-item enumeration, expected-return key present, expected-return value
non-null. -/
def spec_score (env : CheckEnv) (l : List (Value × Value)) : Nat :=
  let m := dGetD l "module_and_function" .none
  let segs := match m with | .str s => pySplit s "." | _ => []
  let op_present : Bool := match m with | .str s => decide (s ≠ "") | _ => false
  let ns_valid : Bool := op_present &&
    (match segs with | [ns, _] => SaltCheck._is_valid_module env ns | _ => false)
  let verb_valid : Bool := op_present &&
    (match segs with | [ns, vb] => SaltCheck._is_valid_function env ns vb | _ => false)
  let assertion_ok : Bool := SaltCheck.assertions_list.any
    (fun t => decide (dGetD l "assertion" .none = .str t))
  (if op_present then 1 else 0) + (if ns_valid then 1 else 0) + (if verb_valid then 1 else 0) +
  (if assertion_ok then 1 else 0) + (if dHasKey l "expected-return" then 1 else 0) +
  (if dGetD l "expected-return" .none ≠ .none then 1 else 0)

/-- The required threshold as the spec words it (C1). -/
def spec_required (l : List (Value × Value)) : Nat :=
  if pyTruthy (dGetD l "skip" (.bool false)) then 0
  else if dGetD l "module_and_function" .none = .str "saltcheck.state_apply" then 2
  else if ["assertEmpty", "assertNotEmpty", "assertTrue", "assertFalse"].any
      (fun t => decide (dGetD l "assertion" .none = .str t)) then 4
  else 6

/-- A concrete minion environment used by the witnesses and
counterexamples: a few modules with their functions, and an invoker
returning fixed values. -/
def cenv0 : CheckEnv where
  list_modules := ["test", "pkg", "saltcheck", "user"]
  list_functions := fun m =>
    if m = "test" then some ["test.echo"]
    else if m = "pkg" then some ["pkg.upgrade_available"]
    else if m = "saltcheck" then some ["saltcheck.state_apply"]
    else Option.none
  cmd := fun fn _ _ =>
    if fn = .str "test.echo" then .ok (.str "hello")
    else if fn = .str "pkg.upgrade_available" then .ok (.bool true)
    else .ok (.dict [(.str "changed", .str "yes")])

/-- A concrete well-formed test definition (the spec's basic example). -/
def lEcho : List (Value × Value) :=
  [(.str "module_and_function", .str "test.echo"),
   (.str "args", .list [.str "hello"]),
   (.str "assertion", .str "assertEqual"),
   (.str "expected-return", .str "hello")]

/-- A concrete apply-alias test definition (the spec's setup example). -/
def lApply : List (Value × Value) :=
  [(.str "module_and_function", .str "saltcheck.state_apply"),
   (.str "args", .list [.str "common"])]

/-- Lookup under a string key in an ordered mapping. -/
def dStrLookup (d : List (String × Value)) (k : String) : Option Value :=
  match d with
  | [] => Option.none
  | (k2, v) :: rest => if k2 = k then some v else dStrLookup rest k

/-- The result `run_test` computes for `lApply` in `cenv0`. -/
def rApply : SaltCheck.RunResult :=
  ⟨SaltCheck.round4 1,
   some ("module.function [args]" ++ "",
     pyStr (.str "saltcheck.state_apply") ++ " " ++ pyStr (.list [.str "common"]) ++ ""),
   some ("IS NOT EMPTY:" ++ " " ++ pyStr (.dict [(.str "changed", .str "yes")])),
   "Pass"⟩

/-- A loader environment for the resolver statements: not salt-ssh, the
known states `foo.bar`, `foo.bar.baz` and `foo.init` each with a
single-entry low plan, and a cache whose answers for the
`foo/bar` and `foo` test directories are the parameters `fa` and `fb`
(every other directory, including the most specific ones of `foo.bar.baz`
and `foo.init`, is empty). -/
def envL5 (fa fb : List String) : LoaderEnv where
  pidfile := .str "/var/run/salt-minion.pid"
  cachedir := "/var/cache/salt/minion"
  read_json := fun _ => .error .ioError
  list_states := ["foo.bar", "foo.bar.baz", "foo.init"]
  show_low_sls := fun s => [.dict [(.str "__sls__", .str s)]]
  cache_dir := fun p _ =>
    if p = "salt://foo/bar/saltcheck-tests" then fa
    else if p = "salt://foo/saltcheck-tests" then fb
    else []
  config_get := fun _ d => d
  render := fun _ => []

/-- A freshly initialised loader (default test location). -/
def stL5 : StateTestLoader := ⟨[], [], "base", "saltcheck-tests"⟩

/-- The top-level namespace `init.tst` of the C5 scenario, as cached
locally. -/
def fL5 : String := "/var/cache/salt/minion/files/base/foo/saltcheck-tests/init.tst"

/-! Helper lemmas and the claim theorems. -/

theorem pyEq_str_decide (x : Value) (s : String) : pyEq x (.str s) = decide (x = .str s) := by
  cases x <;> simp [pyEq] <;> rw [Bool.eq_iff_iff] <;> simp

theorem required_total_eq_spec (l : List (Value × Value)) :
    SaltCheck.required_total l = spec_required l := by
  unfold SaltCheck.required_total spec_required
  simp only [pyEq_str_decide, decide_eq_true_eq]

theorem is_valid_test_spec (env : CheckEnv) (l : List (Value × Value))
    (h : op_shape_ok (dGetD l "module_and_function" .none) = true) :
    SaltCheck.__is_valid_test env (.dict l) =
      .ok (decide (spec_score env l ≥ SaltCheck.required_total l)) := by
  cases hm : dGetD l "module_and_function" .none <;>
    (rw [hm] at h; simp only [op_shape_ok, pyTruthy, Bool.not_or] at h)
  case none =>
    simp only [SaltCheck.__is_valid_test, spec_score, SaltCheck.module_function_points,
      pyTruthy, hm, pyEq_str_decide, Bool.false_eq_true, if_false, Bool.false_and, ge_iff_le]
  case bool b =>
    cases b
    · simp only [SaltCheck.__is_valid_test, spec_score, SaltCheck.module_function_points,
        pyTruthy, hm, pyEq_str_decide, Bool.false_eq_true, if_false, Bool.false_and, ge_iff_le]
    · simp at h
  case int n =>
    by_cases hn : n = 0
    · subst hn
      simp only [SaltCheck.__is_valid_test, spec_score, SaltCheck.module_function_points,
        pyTruthy, hm, pyEq_str_decide, bne_self_eq_false, Bool.false_eq_true, if_false,
        Bool.false_and, ge_iff_le]
    · simp [hn] at h
  case str s =>
    by_cases hs : s = ""
    · subst hs
      simp only [SaltCheck.__is_valid_test, spec_score, SaltCheck.module_function_points,
        pyTruthy, hm, pyEq_str_decide, bne_self_eq_false, Bool.false_eq_true, if_false,
        decide_not, Bool.not_true, Bool.false_and, ge_iff_le]
      all_goals congr 1
    · rw [Bool.or_eq_true] at h
      have hs2 : (pySplit s ".").length = 2 := by
        rcases h with h1 | h2
        · exact absurd h1 (by simp [hs])
        · simpa using h2
      match hsp : pySplit s "." with
      | [a, b] =>
          simp only [SaltCheck.__is_valid_test, spec_score, SaltCheck.module_function_points,
            pyTruthy, hm, hsp, pyEq_str_decide, bne_iff_ne, ne_eq, hs, not_false_iff,
            if_true, decide_not, Bool.true_and, ge_iff_le]
          all_goals congr 1
      | [] => rw [hsp] at hs2; simp at hs2
      | [_] => rw [hsp] at hs2; simp at hs2
      | [_, _, _] => rw [hsp] at hs2; simp at hs2
      | _ :: _ :: _ :: _ :: _ => rw [hsp] at hs2; simp at hs2
  case list l2 =>
    cases l2 with
    | nil =>
        simp only [SaltCheck.__is_valid_test, spec_score, SaltCheck.module_function_points,
          pyTruthy, hm, pyEq_str_decide, List.isEmpty_nil, Bool.not_true, Bool.false_eq_true,
          if_false, Bool.false_and, ge_iff_le]
    | cons a as => simp at h
  case dict l2 =>
    cases l2 with
    | nil =>
        simp only [SaltCheck.__is_valid_test, spec_score, SaltCheck.module_function_points,
          pyTruthy, hm, pyEq_str_decide, List.isEmpty_nil, Bool.not_true, Bool.false_eq_true,
          if_false, Bool.false_and, ge_iff_le]
    | cons a as => simp at h

theorem module_function_points_ok (env : CheckEnv) (m : Value)
    (h : op_shape_ok m = true) : ∃ n, SaltCheck.module_function_points env m = .ok n := by
  by_cases ht : pyTruthy m = true
  · simp only [op_shape_ok, ht, Bool.not_true, Bool.false_or] at h
    match m, h with
    | .str s, h =>
        have hs2 : (pySplit s ".").length = 2 := by simpa using h
        match hsp : pySplit s "." with
        | [a, b] =>
            exact ⟨1 + (if SaltCheck._is_valid_module env a then 1 else 0) +
                (if SaltCheck._is_valid_function env a b then 1 else 0),
              by simp [SaltCheck.module_function_points, ht, hsp]⟩
        | [] => rw [hsp] at hs2; simp at hs2
        | [_] => rw [hsp] at hs2; simp at hs2
        | [_, _, _] => rw [hsp] at hs2; simp at hs2
        | _ :: _ :: _ :: _ :: _ => rw [hsp] at hs2; simp at hs2
  · exact ⟨0, by simp [SaltCheck.module_function_points, ht]⟩

/-- C1: the validator awards one point each for operation present,
namespace valid, verb valid, assertion in the twelve-item enumeration,
expected-return key present and expected-return value non-null, and accepts
exactly when the score reaches the threshold 0 (skip) / 2 (apply alias) /
4 (emptiness or truth assertion) / 6 (otherwise).  Stated for every test
dict whose operation field has a shape the validator's split does not raise
on (the raising shapes are claim C4's subject). -/
theorem C1_validator_scoring (env : CheckEnv) (l : List (Value × Value))
    (h : op_shape_ok (dGetD l "module_and_function" .none) = true) :
    SaltCheck.__is_valid_test env (.dict l) =
      .ok (decide (spec_score env l ≥ spec_required l)) := by
  rw [is_valid_test_spec env l h, required_total_eq_spec]

theorem C1_validator_scoring_witness :
    op_shape_ok (dGetD lEcho "module_and_function" .none) = true ∧
      SaltCheck.__is_valid_test cenv0 (.dict lEcho) =
        .ok (decide (spec_score cenv0 lEcho ≥ spec_required lEcho)) :=
  ⟨by decide, C1_validator_scoring cenv0 lEcho (by decide)⟩

/-- C4 counterexample: on the operation string `"echo"` (no separator) the
validator does not return `false` — the unpacking of
`m_and_f.split('.')` raises a `ValueError` (and the operation point had
already been accrued before the raise).  This refutes "validate(test)
returns false without raising any exception". -/
theorem C4_counterexample :
    SaltCheck.__is_valid_test cenv0
        (.dict [(.str "module_and_function", .str "echo")]) = .error .valueError ∧
      SaltCheck.__is_valid_test cenv0
        (.dict [(.str "module_and_function", .str "a.b.c")]) = .error .valueError :=
  ⟨by rfl, by rfl⟩

/-- C4 amended: for every test definition whose operation value is a
non-empty string without exactly one separator, `__is_valid_test` raises a
`ValueError` from the two-name unpacking of `split('.')` (the namespace and
verb checks are never reached, and no boolean is returned). -/
theorem C4_amended (env : CheckEnv) (l : List (Value × Value)) (s : String)
    (hm : dGetD l "module_and_function" .none = .str s)
    (hne : s ≠ "") (hsplit : (pySplit s ".").length ≠ 2) :
    SaltCheck.__is_valid_test env (.dict l) = .error .valueError := by
  have ht : (s != "") = true := by simpa using hne
  simp only [SaltCheck.__is_valid_test, SaltCheck.module_function_points, hm, pyTruthy, ht,
    if_true]
  match hsp : pySplit s "." with
  | [] => simp [hsp]
  | [_] => simp [hsp]
  | [a, b] => exact absurd (by rw [hsp]; rfl) hsplit
  | [_, _, _] => simp [hsp]
  | _ :: _ :: _ :: _ :: _ => simp [hsp]

theorem C4_amended_witness :
    (dGetD [((Value.str "module_and_function" : Value), (Value.str "echo" : Value))]
        "module_and_function" .none = Value.str "echo") ∧
      SaltCheck.__is_valid_test cenv0
        (.dict [(.str "module_and_function", .str "echo")]) = .error .valueError :=
  ⟨by rfl, C4_amended cenv0 _ "echo" (by rfl) (by decide) (by decide)⟩

/-- C2 counterexample: a test definition with `skip: true` and the
malformed operation `"echo"` does not produce a `Skip` result —
`run_test` validates first, and validation raises a `ValueError` from
`split('.')` even for skipped tests.  This refutes "bypasses all
validation ... regardless of all other fields". -/
theorem C2_counterexample :
    SaltCheck.run_test cenv0 1
        (.dict [(.str "skip", .bool true), (.str "module_and_function", .str "echo")]) =
      .error .valueError ∧
      SaltCheck.run_test cenv0 1
          (.dict [(.str "skip", .bool true), (.str "module_and_function", .str "echo")]) ≠
        .ok ⟨0, Option.none, Option.none, "Skip"⟩ := by
  refine ⟨by rfl, ?_⟩
  rw [show SaltCheck.run_test cenv0 1
      (.dict [(.str "skip", .bool true), (.str "module_and_function", .str "echo")]) =
      .error .valueError from rfl]
  intro h
  exact Except.noConfusion h

/-- C2 amended: for every test definition with truthy `skip` whose
operation field is absent, falsy, or a string with exactly one separator
(so that validation's `split('.')` does not raise), `run_test` returns the
two-field record with status `"Skip"` and duration exactly `0.0`,
independently of the invoker, the clock and all other fields. -/
theorem C2_amended (env : CheckEnv) (elapsed : Rat) (l : List (Value × Value))
    (hskip : pyTruthy (dGetD l "skip" (.bool false)) = true)
    (hshape : op_shape_ok (dGetD l "module_and_function" .none) = true) :
    SaltCheck.run_test env elapsed (.dict l) = .ok ⟨0, Option.none, Option.none, "Skip"⟩ := by
  obtain ⟨n, hn⟩ := module_function_points_ok env _ hshape
  have hvalid : SaltCheck.__is_valid_test env (.dict l) = .ok true := by
    simp only [SaltCheck.__is_valid_test, hn, SaltCheck.required_total, hskip, if_true]
    simp
  simp only [SaltCheck.run_test, hvalid, hskip, if_true]

theorem C2_amended_witness :
    (pyTruthy (dGetD [((Value.str "skip" : Value), (Value.bool true : Value))] "skip"
        (.bool false)) = true) ∧
      SaltCheck.run_test cenv0 1 (.dict [(.str "skip", .bool true)]) =
        .ok ⟨0, Option.none, Option.none, "Skip"⟩ :=
  ⟨by rfl, C2_amended cenv0 1 _ (by rfl) (by rfl)⟩

theorem pyConstruct_typeOf {T : PyType} {x w : Value}
    (h : pyConstruct T x = .ok w) : typeOf w = T := by
  cases T with
  | noneType => simp [pyConstruct] at h
  | bool => simp [pyConstruct] at h; rw [← h]; rfl
  | int =>
      cases x <;> simp [pyConstruct] at h
      case bool b => rw [← h]; rfl
      case int n => rw [← h]; rfl
      case str s =>
          rcases hp : pyParseInt s with _ | n <;> rw [hp] at h <;> simp at h
          rw [← h]; rfl
  | str => simp [pyConstruct] at h; rw [← h]; rfl
  | list =>
      cases x <;> simp [pyConstruct] at h <;> rw [← h] <;> rfl
  | dict =>
      cases x <;> simp [pyConstruct] at h
      case str s =>
          by_cases hs : s = "" <;> simp [hs] at h
          rw [← h]; rfl
      case list l =>
          rcases hp : pyDictPairs l with e | d <;> rw [hp] at h <;> simp [Except.map] at h
          rw [← h]; rfl
      case dict l => rw [← h]; rfl

theorem pyConstruct_self {x : Value} {T : PyType}
    (hT : typeOf x = T) (hne : T ≠ .noneType) : pyConstruct T x = .ok x := by
  subst hT
  cases x <;> simp_all [pyConstruct, typeOf, pyTruthy, pyStr]

/-- C7 counterexample: when the actual value is an `int` and the expected
value is `None`, the cast `int(None)` raises a `TypeError`, which
`_cast_expected_to_returned_type` does not catch (only `ValueError` is
caught) — so not every conversion error is non-fatal, refuting the claim. -/
theorem C7_counterexample :
    SaltCheck._cast_expected_to_returned_type .none (.int 5) = .error .typeError ∧
      SaltCheck._cast_expected_to_returned_type (.int 1) (.list []) = .error .typeError :=
  ⟨by rfl, by rfl⟩

/-- C7 amended: coercion never lets a `ValueError` escape — when
constructing a value of the actual's runtime type fails with a
`ValueError`, the original expected value is returned unchanged — but a
conversion failure of any other class (e.g. the `TypeError` of `int(None)`
or `list(5)`) propagates. -/
theorem C7_amended (e r : Value) :
    SaltCheck._cast_expected_to_returned_type e r ≠ .error .valueError ∧
      (r ≠ .none →
        pyConstruct (typeOf r) (SaltCheck.false_adjust e r) = .error .valueError →
        SaltCheck._cast_expected_to_returned_type e r = .ok e) := by
  constructor
  · unfold SaltCheck._cast_expected_to_returned_type
    by_cases hr : r = .none
    · simp [hr]
    · simp only [hr, if_false]
      rcases hc : pyConstruct (typeOf r) (SaltCheck.false_adjust e r) with err | w
      · cases err <;> simp
      · simp
  · intro hr hc
    unfold SaltCheck._cast_expected_to_returned_type
    simp only [hr, if_false, hc]

theorem C7_amended_witness :
    ((Value.int 5 : Value) ≠ .none) ∧
      pyConstruct (typeOf (Value.int 5))
          (SaltCheck.false_adjust (.str "abc") (.int 5)) = .error .valueError ∧
      SaltCheck._cast_expected_to_returned_type (.str "abc") (.int 5) = .ok (.str "abc") :=
  ⟨by decide, by rfl, (C7_amended (.str "abc") (.int 5)).2 (by decide) (by rfl)⟩

/-- C8: coercion is idempotent whenever the first coercion succeeds
(returns normally): coercing the result against the same actual value
returns it unchanged. -/
theorem C8_coercion_idempotent (e r v : Value)
    (h : SaltCheck._cast_expected_to_returned_type e r = .ok v) :
    SaltCheck._cast_expected_to_returned_type v r = .ok v := by
  unfold SaltCheck._cast_expected_to_returned_type at h ⊢
  by_cases hr : r = .none
  · subst hr
    rw [if_pos rfl]
  · simp only [hr, if_false] at h ⊢
    rcases hc : pyConstruct (typeOf r) (SaltCheck.false_adjust e r) with err | w
    · cases err <;> rw [hc] at h <;> simp at h
      subst h
      rw [hc]
    · rw [hc] at h
      simp at h
      subst h
      have ht : typeOf w = typeOf r := pyConstruct_typeOf hc
      have hadj : SaltCheck.false_adjust w r = w := by
        unfold SaltCheck.false_adjust
        by_cases hb : typeOf r = PyType.bool
        · have hw : ∃ b, w = .bool b := by
            rw [hb] at ht
            cases w <;> simp [typeOf] at ht <;> exact ⟨_, rfl⟩
          rcases hw with ⟨b, rfl⟩
          simp [pyEq]
        · have hb2 : (typeOf r == PyType.bool) = false := by simpa using hb
          simp [hb2]
      have hself : pyConstruct (typeOf r) w = .ok w :=
        pyConstruct_self ht (by cases r <;> simp_all [typeOf])
      rw [hadj, hself]

theorem C8_coercion_idempotent_witness :
    SaltCheck._cast_expected_to_returned_type (.str "5") (.int 3) = .ok (.int 5) ∧
      SaltCheck._cast_expected_to_returned_type (.int 5) (.int 3) = .ok (.int 5) :=
  ⟨by rfl, C8_coercion_idempotent (.str "5") (.int 3) (.int 5) (by rfl)⟩

theorem fail_ne_pass (t : String) : "Fail: " ++ t ≠ "Pass" := by
  intro h
  have h2 : ("Fail: ".data ++ t.data).length = ("Pass".data).length :=
    congrArg List.length (congrArg String.data h)
  rw [List.length_append, show ("Fail: ".data).length = 6 from rfl,
    show ("Pass".data).length = 4 from rfl] at h2
  omega

/-- C9: `__assert_false` succeeds exactly when the actual value — after
the string-to-boolean coercion the source applies first — is the boolean
`False` (an identity test, so e.g. the integer 0 fails), otherwise it
reports `"Fail: <coerced actual> not False"`; in particular a boolean
`True` actual yields `"Fail: True not False"`. -/
theorem C9_assert_false (v : Value) :
    (SaltCheck.__assert_false v = "Pass" ↔
      (match v with | .str s => Value.bool (s ≠ "") | w => w) = .bool false) ∧
    ((match v with | .str s => Value.bool (s ≠ "") | w => w) ≠ .bool false →
      SaltCheck.__assert_false v =
        "Fail: " ++ pyStr (match v with | .str s => Value.bool (s ≠ "") | w => w)
          ++ " not False") ∧
    SaltCheck.__assert_false (.bool true) = "Fail: True not False" := by
  have key : SaltCheck.__assert_false v =
      (if (match v with | .str s => Value.bool (s ≠ "") | w => w) = .bool false then "Pass"
       else "Fail: " ++ pyStr (match v with | .str s => Value.bool (s ≠ "") | w => w)
         ++ " not False") := by
    cases v <;> rfl
  refine ⟨?_, ?_, by rfl⟩
  · rw [key]
    by_cases hc : (match v with | .str s => Value.bool (s ≠ "") | w => w) = .bool false
    · rw [if_pos hc]
      exact iff_of_true rfl hc
    · rw [if_neg hc, String.append_assoc]
      exact iff_of_false (fail_ne_pass _) hc
  · intro hne
    rw [key, if_neg hne]

theorem C9_assert_false_witness :
    ((match (Value.int 3 : Value) with | .str s => Value.bool (s ≠ "") | w => w) ≠ .bool false) ∧
      SaltCheck.__assert_false (.int 3) = "Fail: 3 not False" :=
  ⟨by decide, (C9_assert_false (.int 3)).2.1 (by decide)⟩

theorem dStrLookup_odInsert (d : List (String × Value)) (k : String) (v : Value) (k2 : String) :
    dStrLookup (StateTestLoader.odInsert d k v) k2 =
      if k2 = k then some v else dStrLookup d k2 := by
  induction d with
  | nil =>
      simp only [StateTestLoader.odInsert, dStrLookup]
      split_ifs with h1 h2 <;> simp_all
  | cons p rest ih =>
      obtain ⟨a, b⟩ := p
      simp only [StateTestLoader.odInsert]
      by_cases ha : a = k
      · subst ha
        rw [if_pos rfl]
        simp only [dStrLookup]
        clear ih
        split_ifs with h1 h2 <;> simp_all
      · rw [if_neg ha]
        simp only [dStrLookup, ih]
        clear ih
        split_ifs with h1 h2 <;> simp_all

theorem dStrLookup_odMerge (ps : List (String × Value)) (d : List (String × Value)) (k : String) :
    dStrLookup (StateTestLoader.odMerge d ps) k =
      ((ps.filter (fun kv => kv.1 == k)).getLast?).elim (dStrLookup d k) (fun kv => some kv.2) := by
  induction ps generalizing d with
  | nil => simp [StateTestLoader.odMerge]
  | cons p rest ih =>
      have hstep : StateTestLoader.odMerge d (p :: rest) =
          StateTestLoader.odMerge (StateTestLoader.odInsert d p.1 p.2) rest := by
        simp [StateTestLoader.odMerge]
      rw [hstep, ih]
      by_cases hp : p.1 = k
      · have hb : (p.1 == k) = true := by simpa using hp
        rw [List.filter_cons, if_pos hb, List.getLast?_cons]
        cases hfl : (rest.filter (fun kv => kv.1 == k)).getLast? with
        | none => simp [hfl, dStrLookup_odInsert, hp]
        | some q => simp [hfl]
      · have hb : (p.1 == k) = false := by simpa using hp
        rw [List.filter_cons, if_neg (by simp [hb])]
        cases hfl : (rest.filter (fun kv => kv.1 == k)).getLast? with
        | none =>
            simp only [Option.elim]
            rw [dStrLookup_odInsert, if_neg (fun hh => hp hh.symm)]
        | some q => simp [hfl]

theorem mem_keys_odInsert {x k : String} {v : Value} {d : List (String × Value)}
    (h : x ∈ (StateTestLoader.odInsert d k v).map (·.1)) :
    x ∈ d.map (·.1) ∨ x = k := by
  induction d with
  | nil =>
      rw [StateTestLoader.odInsert] at h
      simp only [List.map_cons, List.map_nil, List.mem_cons, List.not_mem_nil, or_false] at h
      exact Or.inr h
  | cons p rest ih =>
      obtain ⟨a, b⟩ := p
      by_cases ha : a = k
      · subst ha
        rw [StateTestLoader.odInsert, if_pos rfl] at h
        exact Or.inl h
      · rw [StateTestLoader.odInsert, if_neg ha] at h
        simp only [List.map_cons, List.mem_cons] at h ⊢
        rcases h with h | h
        · exact Or.inl (Or.inl h)
        · rcases ih h with h2 | h2
          · exact Or.inl (Or.inr h2)
          · exact Or.inr h2

theorem nodup_keys_odInsert {k : String} {v : Value} {d : List (String × Value)}
    (h : (d.map (·.1)).Nodup) : ((StateTestLoader.odInsert d k v).map (·.1)).Nodup := by
  induction d with
  | nil => simp [StateTestLoader.odInsert]
  | cons p rest ih =>
      obtain ⟨a, b⟩ := p
      simp only [List.map_cons, List.nodup_cons] at h
      by_cases ha : a = k
      · subst ha
        rw [StateTestLoader.odInsert, if_pos rfl]
        simp only [List.map_cons, List.nodup_cons]
        exact h
      · rw [StateTestLoader.odInsert, if_neg ha]
        simp only [List.map_cons, List.nodup_cons]
        refine ⟨fun hmem => ?_, ih h.2⟩
        rcases mem_keys_odInsert hmem with h2 | h2
        · exact h.1 h2
        · exact ha h2

theorem nodup_keys_odMerge {d : List (String × Value)} (ps : List (String × Value))
    (h : (d.map (·.1)).Nodup) : ((StateTestLoader.odMerge d ps).map (·.1)).Nodup := by
  induction ps generalizing d with
  | nil => simpa [StateTestLoader.odMerge] using h
  | cons p rest ih =>
      have hstep : StateTestLoader.odMerge d (p :: rest) =
          StateTestLoader.odMerge (StateTestLoader.odInsert d p.1 p.2) rest := by
        simp [StateTestLoader.odMerge]
      rw [hstep]
      exact ih (nodup_keys_odInsert h)

theorem countP_eq_zero_keys {k : String} {d : List (String × Value)}
    (h : k ∉ d.map (·.1)) : d.countP (fun kv => kv.1 == k) = 0 := by
  induction d with
  | nil => rfl
  | cons p rest ih =>
      simp only [List.map_cons, List.mem_cons, not_or] at h
      rw [List.countP_cons]
      have : (p.1 == k) = false := by
        simp only [beq_eq_false_iff_ne, ne_eq]
        exact fun hh => h.1 hh.symm
      simp [this, ih h.2]

theorem count_eq_indicator {d : List (String × Value)} (k : String)
    (h : (d.map (·.1)).Nodup) :
    d.countP (fun kv => kv.1 == k) = (dStrLookup d k).elim 0 (fun _ => 1) := by
  induction d with
  | nil => rfl
  | cons p rest ih =>
      obtain ⟨a, b⟩ := p
      simp only [List.map_cons, List.nodup_cons] at h
      rw [List.countP_cons]
      by_cases ha : a = k
      · subst ha
        have hz : rest.countP (fun kv => kv.1 == a) = 0 := countP_eq_zero_keys h.1
        simp [dStrLookup, hz]
      · have hb : (a == k) = false := by simpa using ha
        simp [dStrLookup, hb, ha, ih h.2]

theorem load_flat (env : LoaderEnv) (files : List String) (d : List (String × Value)) :
    files.foldl (fun d f => StateTestLoader._load_file_salt_rendered env d f) d =
      StateTestLoader.odMerge d (files.flatMap env.render) := by
  induction files generalizing d with
  | nil => simp [StateTestLoader.odMerge]
  | cons f rest ih =>
      simp only [List.foldl_cons, List.flatMap_cons]
      rw [ih]
      simp [StateTestLoader.odMerge, StateTestLoader._load_file_salt_rendered,
        List.foldl_append]

/-- C6: after `load_test_suite`, the working file set is empty, and for
every test name the resulting ordered mapping holds the definition from the
last rendered occurrence across the files in processing order (last write
wins) — exactly one entry when the name occurs at all, none otherwise. -/
theorem C6_last_wins (env : LoaderEnv) (st : StateTestLoader) :
    (StateTestLoader.load_test_suite env st).test_files = [] ∧
    ∀ k : String,
      dStrLookup (StateTestLoader.load_test_suite env st).test_dict k =
        (((st.test_files.flatMap env.render).filter (fun kv => kv.1 == k)).getLast?).map (·.2) ∧
      (StateTestLoader.load_test_suite env st).test_dict.countP (fun kv => kv.1 == k) =
        ((((st.test_files.flatMap env.render).filter
          (fun kv => kv.1 == k)).getLast?).map (·.2)).elim 0 (fun _ => 1) := by
  refine ⟨rfl, fun k => ?_⟩
  have hdict : (StateTestLoader.load_test_suite env st).test_dict =
      StateTestLoader.odMerge [] (st.test_files.flatMap env.render) := by
    simp [StateTestLoader.load_test_suite, load_flat]
  have hlook : dStrLookup (StateTestLoader.load_test_suite env st).test_dict k =
      (((st.test_files.flatMap env.render).filter (fun kv => kv.1 == k)).getLast?).map (·.2) := by
    rw [hdict, dStrLookup_odMerge]
    cases ((st.test_files.flatMap env.render).filter (fun kv => kv.1 == k)).getLast? <;>
      simp [dStrLookup]
  refine ⟨hlook, ?_⟩
  rw [hdict, count_eq_indicator _ (nodup_keys_odMerge _ (by simp)), ← hdict, hlook]

theorem dGetD_dItem {l : List (Value × Value)} {k : String} {v : Value}
    (h : dGetD l k .none = v) (hne : v ≠ .none) : dItem l k = .ok v := by
  rcases hl : dLookup l k with _ | w
  · rw [dGetD, hl] at h
    exact absurd h.symm hne
  · rw [dGetD, hl] at h
    simp only [Option.getD_some] at h
    simp [dItem, hl, h]

/-- Inversion of a successful non-skip `run_test`: every intermediate step
of the valid path succeeded, the dispatched assertion produced a
description and a value, and the result's status is that value. -/
theorem run_test_ok_inversion (env : CheckEnv) (elapsed : Rat) (l : List (Value × Value))
    (r : SaltCheck.RunResult)
    (h : SaltCheck.run_test env elapsed (.dict l) = .ok r)
    (hskip : pyTruthy (dGetD l "skip" (.bool false)) = false) :
    ∃ m kw assertion expected actual desc value,
      SaltCheck.__is_valid_test env (.dict l) = .ok true ∧
      dItem l "module_and_function" = .ok m ∧
      SaltCheck.merged_kwargs l = .ok kw ∧
      SaltCheck.selected_assertion m l = .ok assertion ∧
      SaltCheck._call_salt_command env m (dGetD l "args" .none) kw
        (dGetD l "assertion_section" .none)
        (dGetD l "assertion_section_delimiter" (.str ":")) = .ok actual ∧
      (if !SaltCheck.coercion_exempt assertion then
          SaltCheck._cast_expected_to_returned_type (dGetD l "expected-return" .none) actual
        else .ok (dGetD l "expected-return" .none)) = .ok expected ∧
      SaltCheck.assertion_dispatch assertion expected actual
        (dGetD l "print_result" (.bool true)) = (some desc, .ok value) ∧
      r.status = value := by
  rw [SaltCheck.run_test] at h
  split at h
  · exact absurd h (by simp)
  · next hv =>
      simp only [hskip, Bool.false_eq_true, if_false] at h
      split at h
      · exact absurd h (by simp)
      · next m hmf =>
          split at h
          · exact absurd h (by simp)
          · next kw hkw =>
              split at h
              · exact absurd h (by simp)
              · next assertion hsel =>
                  split at h
                  · exact absurd h (by simp)
                  · next actual hcall =>
                      split at h
                      · exact absurd h (by simp)
                      · next expected hcast =>
                          split at h
                          · exact absurd h (by simp)
                          · next dsc value hd =>
                              rcases dsc with _ | desc
                              · simp [SaltCheck.build_result] at h
                              · refine ⟨m, kw, assertion, expected, actual, desc, value,
                                  hv, hmf, hkw, hsel, hcall, hcast, hd, ?_⟩
                                simp only [SaltCheck.build_result, Except.ok.injEq] at h
                                rw [← h]
  · next hv =>
      simp [SaltCheck.build_result] at h

/-- C3: for every test definition whose operation is the apply alias
`saltcheck.state_apply` with skip false, validation requires a score of at
least 2, and whenever `run_test` produces a result its status is the
verdict of `__assert_not_empty` on the operation's (section-extracted)
result — no declared assertion field is consulted. -/
theorem C3_apply_alias (env : CheckEnv) (elapsed : Rat) (l : List (Value × Value))
    (hop : dGetD l "module_and_function" .none = .str "saltcheck.state_apply")
    (hskip : pyTruthy (dGetD l "skip" (.bool false)) = false) :
    SaltCheck.__is_valid_test env (.dict l) = .ok (decide (spec_score env l ≥ 2)) ∧
    ∀ r : SaltCheck.RunResult, SaltCheck.run_test env elapsed (.dict l) = .ok r →
      ∃ kw actual, SaltCheck.merged_kwargs l = .ok kw ∧
        SaltCheck._call_salt_command env (.str "saltcheck.state_apply")
          (dGetD l "args" .none) kw (dGetD l "assertion_section" .none)
          (dGetD l "assertion_section_delimiter" (.str ":")) = .ok actual ∧
        r.status = SaltCheck.__assert_not_empty actual := by
  constructor
  · have hshape : op_shape_ok (dGetD l "module_and_function" .none) = true := by
      rw [hop]; decide
    have hreq : SaltCheck.required_total l = 2 := by
      simp [SaltCheck.required_total, hskip, hop, pyEq]
    rw [is_valid_test_spec env l hshape, hreq]
  · intro r hr
    obtain ⟨m, kw, assertion, expected, actual, desc, value,
        hv, hmf, hkw, hsel, hcall, hcast, hd, hst⟩ :=
      run_test_ok_inversion env elapsed l r hr hskip
    have hitem : dItem l "module_and_function" = .ok (.str "saltcheck.state_apply") :=
      dGetD_dItem hop (by decide)
    have hm : m = .str "saltcheck.state_apply" :=
      (Except.ok.inj (hitem.symm.trans hmf)).symm
    subst hm
    have hsel2 : assertion = .str "assertNotEmpty" := by
      simp [SaltCheck.selected_assertion, pyEq] at hsel
      exact hsel.symm
    subst hsel2
    refine ⟨kw, actual, hkw, hcall, ?_⟩
    have hD : SaltCheck.assertion_dispatch (.str "assertNotEmpty") expected actual
        (dGetD l "print_result" (.bool true)) =
        (some "IS NOT EMPTY:", .ok (SaltCheck.__assert_not_empty actual)) := by rfl
    rw [hD] at hd
    have hsnd := congrArg Prod.snd hd
    simp only [Except.ok.injEq] at hsnd
    rw [hst, ← hsnd]

theorem C3_apply_alias_witness :
    (dGetD lApply "module_and_function" .none = .str "saltcheck.state_apply") ∧
    SaltCheck.__is_valid_test cenv0 (.dict lApply) =
        .ok (decide (spec_score cenv0 lApply ≥ 2)) ∧
    ∃ kw actual, SaltCheck.merged_kwargs lApply = .ok kw ∧
      SaltCheck._call_salt_command cenv0 (.str "saltcheck.state_apply")
        (dGetD lApply "args" .none) kw (dGetD lApply "assertion_section" .none)
        (dGetD lApply "assertion_section_delimiter" (.str ":")) = .ok actual ∧
      rApply.status = SaltCheck.__assert_not_empty actual :=
  ⟨by rfl, (C3_apply_alias cenv0 1 lApply (by rfl) (by rfl)).1,
   (C3_apply_alias cenv0 1 lApply (by rfl) (by rfl)).2 rApply (by rfl)⟩

theorem module_function_points_le (env : CheckEnv) (m : Value) (n : Nat)
    (h : SaltCheck.module_function_points env m = .ok n) : n ≤ 3 := by
  cases m <;> simp only [SaltCheck.module_function_points, pyTruthy] at h
  · simp at h
    omega
  · rename_i b
    cases b <;> (try simp at h) <;> omega
  · split_ifs at h <;> (try simp at h) <;> omega
  · rename_i s
    split_ifs at h
    · match hsp : pySplit s "." with
      | [] => rw [hsp] at h; simp at h
      | [_] => rw [hsp] at h; simp at h
      | [a, b] =>
          rw [hsp] at h
          simp only [Except.ok.injEq] at h
          subst h
          split_ifs <;> omega
      | [_, _, _] => rw [hsp] at h; simp at h
      | _ :: _ :: _ :: _ :: _ => rw [hsp] at h; simp at h
    · (try simp at h) <;> omega
  · split_ifs at h <;> (try simp at h) <;> omega
  · split_ifs at h <;> (try simp at h) <;> omega

theorem module_function_points_pos_truthy (env : CheckEnv) (m : Value) (n : Nat)
    (h : SaltCheck.module_function_points env m = .ok n) (hn : 1 ≤ n) :
    pyTruthy m = true := by
  by_cases ht : pyTruthy m = true
  · exact ht
  · rw [SaltCheck.module_function_points.eq_def, if_neg ht] at h
    simp only [Except.ok.injEq] at h
    omega

theorem any_pyEq_str {x : Value} {L : List String}
    (h : L.any (fun t => pyEq x (.str t)) = true) : ∃ t ∈ L, x = .str t := by
  rw [List.any_eq_true] at h
  obtain ⟨t, ht, he⟩ := h
  rw [pyEq_str_decide, decide_eq_true_eq] at he
  exact ⟨t, ht, he⟩

theorem assert_shape_equal (e r p : Value) :
    SaltCheck.__assert_equal e r p = "Pass" ∨
      ∃ t, SaltCheck.__assert_equal e r p = "Fail: " ++ t := by
  rw [SaltCheck.__assert_equal]
  split_ifs <;> first | exact Or.inl rfl | exact Or.inr ⟨_, rfl⟩

theorem assert_shape_not_equal (e r p : Value) :
    SaltCheck.__assert_not_equal e r p = "Pass" ∨
      ∃ t, SaltCheck.__assert_not_equal e r p = "Fail: " ++ t := by
  rw [SaltCheck.__assert_not_equal]
  split_ifs <;> first | exact Or.inl rfl | exact Or.inr ⟨_, rfl⟩

theorem assert_shape_true (r : Value) :
    SaltCheck.__assert_true r = "Pass" ∨ ∃ t, SaltCheck.__assert_true r = "Fail: " ++ t := by
  rw [SaltCheck.__assert_true]
  split_ifs <;>
    first
    | exact Or.inl rfl
    | exact Or.inr ⟨_, String.append_assoc _ _ _⟩

theorem assert_shape_false (r : Value) :
    SaltCheck.__assert_false r = "Pass" ∨ ∃ t, SaltCheck.__assert_false r = "Fail: " ++ t := by
  cases r <;> simp only [SaltCheck.__assert_false.eq_def] <;> split_ifs <;>
    first
    | exact Or.inl rfl
    | exact Or.inr ⟨_, String.append_assoc _ _ _⟩

theorem assert_shape_in (e r p : Value) (v : String)
    (h : SaltCheck.__assert_in e r p = .ok v) :
    v = "Pass" ∨ ∃ t, v = "Fail: " ++ t := by
  rw [SaltCheck.__assert_in] at h
  split at h
  · exact absurd h (by simp)
  · split at h <;> simp only [Except.ok.injEq] at h <;> subst h
    · exact Or.inl rfl
    · exact Or.inr ⟨_, rfl⟩

theorem assert_shape_not_in (e r p : Value) (v : String)
    (h : SaltCheck.__assert_not_in e r p = .ok v) :
    v = "Pass" ∨ ∃ t, v = "Fail: " ++ t := by
  rw [SaltCheck.__assert_not_in] at h
  split at h
  · exact absurd h (by simp)
  · split at h <;> simp only [Except.ok.injEq] at h <;> subst h
    · exact Or.inl rfl
    · exact Or.inr ⟨_, rfl⟩

theorem assert_shape_cmp (x : Except PyErr Bool) (r : Value) (v : String)
    (h : x.map (fun b => if b then "Pass" else "Fail: " ++ pyStr r ++ " not False") = .ok v) :
    v = "Pass" ∨ ∃ t, v = "Fail: " ++ t := by
  rcases x with e | b
  · exact absurd h (by simp [Except.map])
  · simp only [Except.map, Except.ok.injEq] at h
    subst h
    split_ifs
    · exact Or.inl rfl
    · exact Or.inr ⟨_, String.append_assoc _ _ _⟩

theorem assert_shape_cmp_neg (x : Except PyErr Bool) (r : Value) (v : String)
    (h : x.map (fun b => if !b then "Pass" else "Fail: " ++ pyStr r ++ " not False") = .ok v) :
    v = "Pass" ∨ ∃ t, v = "Fail: " ++ t := by
  rcases x with e | b
  · exact absurd h (by simp [Except.map])
  · simp only [Except.map, Except.ok.injEq] at h
    subst h
    split_ifs
    · exact Or.inl rfl
    · exact Or.inr ⟨_, String.append_assoc _ _ _⟩

theorem assert_shape_empty (r : Value) :
    SaltCheck.__assert_empty r = "Pass" ∨ ∃ t, SaltCheck.__assert_empty r = "Fail: " ++ t := by
  rw [SaltCheck.__assert_empty]
  split_ifs <;>
    first
    | exact Or.inl rfl
    | exact Or.inr ⟨_, String.append_assoc _ _ _⟩

theorem assert_shape_not_empty (r : Value) :
    SaltCheck.__assert_not_empty r = "Pass" ∨
      ∃ t, SaltCheck.__assert_not_empty r = "Fail: " ++ t := by
  rw [SaltCheck.__assert_not_empty]
  split_ifs <;> first | exact Or.inl rfl | exact Or.inr ⟨_, rfl⟩

/-- Whenever the assertion dispatch assigns a description, the value it
produces is either `"Pass"` or a `"Fail: "`-prefixed message. -/
theorem assertion_dispatch_shape (a e act p : Value) (desc : String) (v : String)
    (h : SaltCheck.assertion_dispatch a e act p = (some desc, .ok v)) :
    v = "Pass" ∨ ∃ t, v = "Fail: " ++ t := by
  rw [SaltCheck.assertion_dispatch] at h
  by_cases hc1 : pyEq a (.str "assertEqual") = true
  · rw [if_pos hc1] at h
    have hs := congrArg Prod.snd h
    simp only [Except.ok.injEq] at hs
    rw [← hs]
    exact assert_shape_equal _ _ _
  · rw [if_neg hc1] at h
    by_cases hc2 : pyEq a (.str "assertNotEqual") = true
    · rw [if_pos hc2] at h
      have hs := congrArg Prod.snd h
      simp only [Except.ok.injEq] at hs
      rw [← hs]
      exact assert_shape_not_equal _ _ _
    · rw [if_neg hc2] at h
      by_cases hc3 : pyEq a (.str "assertTrue") = true
      · rw [if_pos hc3] at h
        have hs := congrArg Prod.snd h
        simp only [Except.ok.injEq] at hs
        rw [← hs]
        exact assert_shape_true _
      · rw [if_neg hc3] at h
        by_cases hc4 : pyEq a (.str "assertFalse") = true
        · rw [if_pos hc4] at h
          have hs := congrArg Prod.snd h
          simp only [Except.ok.injEq] at hs
          rw [← hs]
          exact assert_shape_false _
        · rw [if_neg hc4] at h
          by_cases hc5 : pyEq a (.str "assertIn") = true
          · rw [if_pos hc5] at h
            exact assert_shape_in _ _ _ _ (congrArg Prod.snd h)
          · rw [if_neg hc5] at h
            by_cases hc6 : pyEq a (.str "assertNotIn") = true
            · rw [if_pos hc6] at h
              exact assert_shape_not_in _ _ _ _ (congrArg Prod.snd h)
            · rw [if_neg hc6] at h
              by_cases hc7 : pyEq a (.str "assertGreater") = true
              · rw [if_pos hc7] at h
                exact assert_shape_cmp _ _ _ (congrArg Prod.snd h)
              · rw [if_neg hc7] at h
                by_cases hc8 : pyEq a (.str "assertGreaterEqual") = true
                · rw [if_pos hc8] at h
                  exact assert_shape_cmp_neg _ _ _ (congrArg Prod.snd h)
                · rw [if_neg hc8] at h
                  by_cases hc9 : pyEq a (.str "assertLess") = true
                  · rw [if_pos hc9] at h
                    exact assert_shape_cmp _ _ _ (congrArg Prod.snd h)
                  · rw [if_neg hc9] at h
                    by_cases hc10 : pyEq a (.str "assertLessEqual") = true
                    · rw [if_pos hc10] at h
                      exact assert_shape_cmp_neg _ _ _ (congrArg Prod.snd h)
                    · rw [if_neg hc10] at h
                      by_cases hc11 : pyEq a (.str "assertEmpty") = true
                      · rw [if_pos hc11] at h
                        have hs := congrArg Prod.snd h
                        simp only [Except.ok.injEq] at hs
                        rw [← hs]
                        exact assert_shape_empty _
                      · rw [if_neg hc11] at h
                        by_cases hc12 : pyEq a (.str "assertNotEmpty") = true
                        · rw [if_pos hc12] at h
                          have hs := congrArg Prod.snd h
                          simp only [Except.ok.injEq] at hs
                          rw [← hs]
                          exact assert_shape_not_empty _
                        · rw [if_neg hc12] at h
                          exact absurd (congrArg Prod.fst h) (by simp)

theorem fail_prefix_ne_bad (t : String) : "Fail: " ++ t ≠ "Fail - bad assertion" := by
  intro h
  have h2 : (("Fail: ").data ++ t.data).take 6 = ("Fail - bad assertion").data.take 6 := by
    exact congrArg (fun l => List.take 6 l) (congrArg String.data h)
  rw [show (6 : Nat) = ("Fail: ").data.length from rfl, List.take_left] at h2
  exact absurd h2 (by decide)

/-- C10: for every test definition that passes validation with skip false,
the assertion `run_test` selects is one of the twelve supported names
(forced to `assertNotEmpty` for the apply alias, present and enumerated
otherwise), and consequently no successful `run_test` ever reports
`"Fail - bad assertion"` for such a definition. -/
theorem C10_no_bad_assertion (env : CheckEnv) (l : List (Value × Value))
    (hvalid : SaltCheck.__is_valid_test env (.dict l) = .ok true)
    (hskip : pyTruthy (dGetD l "skip" (.bool false)) = false) :
    (∃ m s, dItem l "module_and_function" = .ok m ∧
        SaltCheck.selected_assertion m l = .ok (.str s) ∧ s ∈ SaltCheck.assertions_list) ∧
    ∀ (elapsed : Rat) (r : SaltCheck.RunResult),
      SaltCheck.run_test env elapsed (.dict l) = .ok r →
        r.status ≠ "Fail - bad assertion" := by
  constructor
  · rw [SaltCheck.__is_valid_test] at hvalid
    split at hvalid
    · exact absurd hvalid (by simp)
    · next mf hmf =>
        simp only [Except.ok.injEq, decide_eq_true_eq, ge_iff_le] at hvalid
        by_cases happly :
            pyEq (dGetD l "module_and_function" .none) (.str "saltcheck.state_apply") = true
        · have hop : dGetD l "module_and_function" .none = .str "saltcheck.state_apply" := by
            rwa [pyEq_str_decide, decide_eq_true_eq] at happly
          refine ⟨.str "saltcheck.state_apply", "assertNotEmpty",
            dGetD_dItem hop (by decide), ?_, by decide⟩
          simp [SaltCheck.selected_assertion, pyEq]
        · have hreq : SaltCheck.required_total l =
              (if (["assertEmpty", "assertNotEmpty", "assertTrue", "assertFalse"].any
                  (fun t => pyEq (dGetD l "assertion" .none) (.str t))) = true
               then 4 else 6) := by
            rw [SaltCheck.required_total, if_neg (by simp [hskip]), if_neg happly]
          have hassert : ∃ t ∈ SaltCheck.assertions_list,
              dGetD l "assertion" .none = .str t := by
            by_cases h4 : (["assertEmpty", "assertNotEmpty", "assertTrue", "assertFalse"].any
                (fun t => pyEq (dGetD l "assertion" .none) (.str t))) = true
            · obtain ⟨t, ht4, he⟩ := any_pyEq_str h4
              refine ⟨t, ?_, he⟩
              simp only [List.mem_cons, List.not_mem_nil, or_false] at ht4
              rcases ht4 with rfl | rfl | rfl | rfl <;> decide
            · have hA : (SaltCheck.assertions_list.any
                  (fun t => pyEq (dGetD l "assertion" .none) (.str t))) = true := by
                by_contra hA
                have hA0 : (if (SaltCheck.assertions_list.any
                    (fun t => pyEq (dGetD l "assertion" .none) (.str t))) = true
                    then 1 else 0) = 0 := if_neg hA
                have hmle := module_function_points_le env _ mf hmf
                rw [hreq, if_neg h4] at hvalid
                rw [hA0] at hvalid
                split_ifs at hvalid <;> omega
              exact any_pyEq_str hA
          obtain ⟨t, ht, he⟩ := hassert
          have hmfpos : 1 ≤ mf := by
            rw [hreq] at hvalid
            have hmle := module_function_points_le env _ mf hmf
            split_ifs at hvalid <;> omega
          have htruthy := module_function_points_pos_truthy env _ mf hmf hmfpos
          have hne : dGetD l "module_and_function" .none ≠ .none := by
            intro hn
            rw [hn] at htruthy
            simp [pyTruthy] at htruthy
          refine ⟨dGetD l "module_and_function" .none, t, dGetD_dItem rfl hne, ?_, ht⟩
          rw [SaltCheck.selected_assertion, if_neg happly]
          exact dGetD_dItem he (fun hh => Value.noConfusion hh)
  · intro elapsed r hr
    obtain ⟨m, kw, assertion, expected, actual, desc, value, _, _, _, _, _, _, hd, hst⟩ :=
      run_test_ok_inversion env elapsed l r hr hskip
    rw [hst]
    rcases assertion_dispatch_shape _ _ _ _ _ _ hd with hsh | ⟨t, hsh⟩
    · rw [hsh]
      decide
    · rw [hsh]
      exact fail_prefix_ne_bad t

theorem C10_no_bad_assertion_witness :
    (SaltCheck.__is_valid_test cenv0 (.dict lEcho) = .ok true) ∧
    ((∃ m s, dItem lEcho "module_and_function" = .ok m ∧
        SaltCheck.selected_assertion m lEcho = .ok (.str s) ∧ s ∈ SaltCheck.assertions_list) ∧
      ∀ (elapsed : Rat) (r : SaltCheck.RunResult),
        SaltCheck.run_test cenv0 elapsed (.dict lEcho) = .ok r →
          r.status ≠ "Fail - bad assertion") :=
  ⟨by rfl, C10_no_bad_assertion cenv0 lEcho (by rfl) (by rfl)⟩

/-- C5 counterexample: for state `foo.bar` whose most-specific test
directory is empty but whose top-level namespace directory contains
`init.tst`, resolution caches that file (the log shows the fallback
request) yet returns NO files — the cached file matches neither of the two
suffix patterns `foo/bar/saltcheck-tests/init.tst` and
`foo/saltcheck-tests/bar.tst`, refuting "resolution returns exactly that
init.tst file and no others". -/
theorem C5_counterexample :
    StateTestLoader.add_test_files_for_sls (envL5 [] [fL5]) stL5 "foo.bar" false =
      (["salt://foo/bar/saltcheck-tests", "salt://foo/saltcheck-tests"], .ok stL5) ∧
    (StateTestLoader.add_test_files_for_sls (envL5 [] [fL5]) stL5 "foo.bar" false).2 ≠
      .ok ⟨[fL5], [], "base", "saltcheck-tests"⟩ := by
  refine ⟨by rfl, ?_⟩
  rw [show (StateTestLoader.add_test_files_for_sls (envL5 [] [fL5]) stL5 "foo.bar" false).2 =
    .ok stL5 from rfl]
  intro h
  exact absurd (congrArg StateTestLoader.test_files (Except.ok.inj h)) (by decide)

/-- C5 amended: per state entry the resolver requests up to three
candidate test directories, most specific first, stopping at the first
whose caching request yields files, and the processed state identifiers it
records keep the same directory from being cached twice in one resolution
pass.  For `foo.bar` a non-empty level-(a) answer stops the pass at one
request, an empty one adds the `foo` request — and only once, whatever it
returns, because the parent and the top-level candidate are the same
directory and its identifier `foo` is already recorded.  For
`foo.bar.baz` the three candidate directories are distinct and the pass
issues two requests when the `foo/bar` answer is non-empty and all three
when it is empty.  The claim's "returns exactly that init.tst file"
scenario, however, depends on the state's final segment: for `foo.bar`
the cached top-level `init.tst` matches neither expected suffix pattern,
so it is only cached and no file is returned (only `check_all` would
include it), while for `foo.init` the same file matches the
parent/location/leaf pattern `foo/saltcheck-tests/init.tst` and is
returned as the only file. -/
theorem C5_amended (fa fb : List String) :
    (fa ≠ [] →
      (StateTestLoader.process_low_data (envL5 fa fb) "base" "saltcheck-tests" false false
          ⟨[], [], []⟩ (.dict [(.str "__sls__", .str "foo.bar")])).1 =
        ["salt://foo/bar/saltcheck-tests"]) ∧
    (fa = [] →
      (StateTestLoader.process_low_data (envL5 fa fb) "base" "saltcheck-tests" false false
          ⟨[], [], []⟩ (.dict [(.str "__sls__", .str "foo.bar")])).1 =
        ["salt://foo/bar/saltcheck-tests", "salt://foo/saltcheck-tests"]) ∧
    (fa ≠ [] →
      (StateTestLoader.process_low_data (envL5 fa fb) "base" "saltcheck-tests" false false
          ⟨[], [], []⟩ (.dict [(.str "__sls__", .str "foo.bar.baz")])).1 =
        ["salt://foo/bar/baz/saltcheck-tests", "salt://foo/bar/saltcheck-tests"]) ∧
    (fa = [] →
      (StateTestLoader.process_low_data (envL5 fa fb) "base" "saltcheck-tests" false false
          ⟨[], [], []⟩ (.dict [(.str "__sls__", .str "foo.bar.baz")])).1 =
        ["salt://foo/bar/baz/saltcheck-tests", "salt://foo/bar/saltcheck-tests",
         "salt://foo/saltcheck-tests"]) ∧
    StateTestLoader.add_test_files_for_sls (envL5 [] [fL5]) stL5 "foo.bar" false =
      (["salt://foo/bar/saltcheck-tests", "salt://foo/saltcheck-tests"], .ok stL5) ∧
    pyEndsWith fL5 "foo/bar/saltcheck-tests/init.tst" = false ∧
    pyEndsWith fL5 "foo/saltcheck-tests/bar.tst" = false ∧
    StateTestLoader.add_test_files_for_sls (envL5 [] [fL5]) stL5 "foo.init" false =
      (["salt://foo/init/saltcheck-tests", "salt://foo/saltcheck-tests"],
       .ok ⟨[fL5], [], "base", "saltcheck-tests"⟩) ∧
    pyEndsWith fL5 "foo/saltcheck-tests/init.tst" = true := by
  refine ⟨?_, ?_, ?_, ?_, by rfl, by rfl, by rfl, by rfl, by rfl⟩
  · intro h
    rcases fa with _ | ⟨x, xs⟩
    · exact absurd rfl h
    · rfl
  · intro h
    subst h
    rcases fb with _ | ⟨y, ys⟩ <;> rfl
  · intro h
    rcases fa with _ | ⟨x, xs⟩
    · exact absurd rfl h
    · rfl
  · intro h
    subst h
    rcases fb with _ | ⟨y, ys⟩ <;> rfl

theorem C5_amended_witness :
    (([fL5] : List String) ≠ [] ∧
      (StateTestLoader.process_low_data (envL5 [fL5] []) "base" "saltcheck-tests" false false
          ⟨[], [], []⟩ (.dict [(.str "__sls__", .str "foo.bar")])).1 =
        ["salt://foo/bar/saltcheck-tests"]) ∧
    (([] : List String) = [] ∧
      (StateTestLoader.process_low_data (envL5 [] []) "base" "saltcheck-tests" false false
          ⟨[], [], []⟩ (.dict [(.str "__sls__", .str "foo.bar.baz")])).1 =
        ["salt://foo/bar/baz/saltcheck-tests", "salt://foo/bar/saltcheck-tests",
         "salt://foo/saltcheck-tests"]) :=
  ⟨⟨by decide, (C5_amended [fL5] []).1 (by decide)⟩,
   ⟨rfl, (C5_amended [] []).2.2.2.1 rfl⟩⟩
